import Mathlib

/-!
Verification of the SherlockAI RAG core (app/services/rag_service.py,
app/services/hybrid_search.py, app/api/rag.py) against its specification.

The Python source is shallowly embedded: strings are Lean `String`s, floats
are exact rationals `ℚ`, and every external service call (embedding model,
vector index, BM25/TF-IDF library scoring, chat model) is an oracle supplied
through an `Env` record, as an `Except` value so that a failing call can be
modelled.  The two `try/except` blocks of the orchestrator
(`process_exact_ticket_query` line 319 and `process_rag_query` line 1503)
are modelled by optional injected exceptions in `Env`.
-/

namespace SherlockAI

/-! ## Character and string utilities (re module / str-method semantics) -/

/-- Word character in the sense of the regex `\b` and `\w`: ASCII letters,
digits and underscore (the source only ever feeds ASCII text to these
regexes). -/
def isWordChar (c : Char) : Bool := c.isAlphanum || c = '_'

/-- Python `str.strip()` on a character list. -/
def stripL (l : List Char) : List Char :=
  ((l.dropWhile Char.isWhitespace).reverse.dropWhile Char.isWhitespace).reverse

/-- Python `str.strip()`. -/
def strip (s : String) : String := String.mk (stripL s.data)

/-- Python `str.lower()` (ASCII). -/
def lowerStr (s : String) : String := String.mk (s.data.map Char.toLower)

/-- Python `needle in hay` on character lists. -/
def containsSubL (needle : List Char) : List Char → Bool
  | [] => needle.isPrefixOf []
  | c :: cs => needle.isPrefixOf (c :: cs) || containsSubL needle cs

/-- Python `needle in hay` substring containment. -/
def strContains (hay needle : String) : Bool := containsSubL needle.data hay.data

/-- `p` is a literal prefix of `s` (used to state "begins with" properties). -/
def strStarts (s p : String) : Bool := p.data.isPrefixOf s.data

/-- Helper for `splitWsL`: `acc` is the current word, reversed. -/
def splitWsAux : List Char → List Char → List (List Char)
  | acc, [] => if acc = [] then [] else [acc.reverse]
  | acc, c :: cs =>
    if c.isWhitespace then
      (if acc = [] then [] else [acc.reverse]) ++ splitWsAux [] cs
    else splitWsAux (c :: acc) cs

/-- Python whitespace `str.split()`: maximal runs of non-whitespace. -/
def splitWsL (l : List Char) : List (List Char) := splitWsAux [] l

/-- Python `text.split()` as a list of word strings. -/
def splitWs (s : String) : List String := (splitWsL s.data).map String.mk

/-- Stable insertion keeping earlier elements first among equal keys
(`list.sort(key=…, reverse=True)` is a stable descending sort; a stable
descending order is unique, so insertion sort reproduces it). -/
def insertByKeyDesc (key : α → ℚ) (x : α) : List α → List α
  | [] => [x]
  | y :: ys => if key x > key y then x :: y :: ys else y :: insertByKeyDesc key x ys

/-- Python `list.sort(key=key, reverse=True)` (stable, descending). -/
def stableSortDesc (key : α → ℚ) (l : List α) : List α :=
  l.foldl (fun acc x => insertByKeyDesc key x acc) []

/-- Python `s[:n]` on a string. -/
def takeStr (n : Nat) (s : String) : String := String.mk (s.data.take n)

/-! ## Data model -/

/-- An incident record as stored in `hybrid_search_service.corpus_metadata`
(the keys written by `build_indices`, hybrid_search.py lines 159-168). -/
structure Incident where
  id : String
  title : String
  description : String
  resolution : String
  tags : List String
  created_at : String
  resolved_by : String
deriving Repr, DecidableEq

/-- Query complexity (rag_service.py `QueryComplexity`). -/
inductive QueryComplexity where
  | SIMPLE
  | COMPLEX
  | UNKNOWN
deriving Repr, DecidableEq

/-- `QueryComplexity.value`. -/
def QueryComplexity.value : QueryComplexity → String
  | .SIMPLE => "simple"
  | .COMPLEX => "complex"
  | .UNKNOWN => "unknown"

/-! ## Exact ticket-ID extraction (rag_service.py lines 71-109)

`extract_exact_ticket_id` searches the stripped query against eight regex
patterns in order, case-insensitively; the first pattern that matches
anywhere wins, `re.search` picking the leftmost occurrence.  Each pattern is
`\b(PREFIX-\d+)\b` (or `\b(SLACK-\d+-\d+)\b`), so a match needs a non-word
character (or the string edge) on both sides.  The matched text is returned
upper-cased; we compare case-insensitively against the upper-case pattern
literal and emit the digits verbatim, which yields the same string. -/

/-- Case-insensitive literal match: consumes `pat` (given upper-case) from
the front of the input, returning the remainder. -/
def matchCI : List Char → List Char → Option (List Char)
  | [], rest => some rest
  | _ :: _, [] => none
  | p :: ps, c :: cs => if c.toUpper = p then matchCI ps cs else none

/-- Exact (case-sensitive) literal match, returning the remainder. -/
def matchLit : List Char → List Char → Option (List Char)
  | [], rest => some rest
  | _ :: _, [] => none
  | p :: ps, c :: cs => if c = p then matchLit ps cs else none

/-- `\b` holds before the current position given the previous character
(none at the start of the string); the pattern's first character is a word
character. -/
def boundaryBefore : Option Char → Bool
  | none => true
  | some c => ¬ isWordChar c

/-- `\b` holds after a word character at the head of `rest`. -/
def boundaryAfterWord : List Char → Bool
  | [] => true
  | c :: _ => ¬ isWordChar c

/-- Try to match `PREFIX-\d+` (plus `-\d+` when `slack`) at the current
position, returning the canonical upper-cased id text. -/
def matchIdHere (pat : List Char) (slack : Bool) (s : List Char) : Option (List Char) :=
  match matchCI pat s with
  | none => none
  | some rest =>
    let ds := rest.takeWhile Char.isDigit
    let rest2 := rest.dropWhile Char.isDigit
    if ds.isEmpty then none
    else if slack then
      match rest2 with
      | '-' :: r3 =>
        let ds2 := r3.takeWhile Char.isDigit
        let r4 := r3.dropWhile Char.isDigit
        if ds2.isEmpty then none
        else if boundaryAfterWord r4 then some (pat ++ ds ++ '-' :: ds2) else none
      | _ => none
    else
      if boundaryAfterWord rest2 then some (pat ++ ds) else none

/-- `re.search` for one ticket-id pattern: scan every position left to
right, requiring a word boundary before the match. -/
def searchId (pat : List Char) (slack : Bool) : Option Char → List Char → Option (List Char)
  | prev, s =>
    match (if boundaryBefore prev then matchIdHere pat slack s else none) with
    | some r => some r
    | none =>
      match s with
      | [] => none
      | c :: cs => searchId pat slack (some c) cs

/-- The eight id patterns of `extract_exact_ticket_id`, in source order;
the Bool flags the two-number SLACK form. -/
def idPatterns : List (List Char × Bool) :=
  [("JSP-".data, false), ("EUL-".data, false), ("JIRA-".data, false),
   ("INC-".data, false), ("SLACK-".data, true), ("TICKET-".data, false),
   ("BUG-".data, false), ("ISSUE-".data, false)]

/-- `RAGService.extract_exact_ticket_id` (rag_service.py lines 71-109). -/
def extract_exact_ticket_id (query : String) : Option String :=
  let cs := stripL query.data
  idPatterns.findSome? (fun p => (searchId p.1 p.2 none cs).map String.mk)

/-- `RAGService.is_incident_id` (rag_service.py lines 111-121). -/
def is_incident_id (query : String) : Bool :=
  (extract_exact_ticket_id query).isSome

/-! ## Payment-domain gate (rag_service.py lines 340-379) -/

/-- The keyword list of `is_payment_domain_query` (rag_service.py lines
360-367), verbatim. -/
def payment_keywords : List String :=
  ["payment", "upi", "gateway", "transaction", "card", "wallet",
   "bank", "refund", "settlement", "webhook", "api", "integration",
   "timeout", "error", "failure", "processing", "authorization",
   "authentication", "merchant", "pinelabs", "payu", "razorpay",
   "hdfc", "axis", "icici", "sbi", "kotak", "visa", "mastercard",
   "mobikwik", "paytm", "phonepe", "gpay", "amazonpay"]

/-- `RAGService.is_payment_domain_query`: an incident id always passes;
otherwise any keyword occurring as a substring of the lower-cased query. -/
def is_payment_domain_query (query : String) : Bool :=
  if is_incident_id query then true
  else payment_keywords.any (fun k => strContains (lowerStr query) k)

/-! ## Merchant / gateway extraction (hybrid_search.py lines 439-497)

Each function lower-cases its argument and tries a list of regex patterns
in order with `re.search` (leftmost occurrence); the first pattern that
matches returns its first capture group.  Quantified sub-expressions range
over character classes disjoint from what follows them, so maximal-run
scanning reproduces the regex semantics; the one genuinely backtracking
pattern (gateway names with an optional suffix) is searched exhaustively. -/

/-- The capture class `[a-zA-Z0-9_-]`. -/
def isCapChar (c : Char) : Bool := c.isAlphanum || c = '_' || c = '-'

/-- The separator class `[:\s]`. -/
def isSepColon (c : Char) : Bool := c = ':' || c.isWhitespace

/-- The class `[\s_-]` used in the gateway name pattern. -/
def isSepGW (c : Char) : Bool := c.isWhitespace || c = '_' || c = '-'

/-- One position of `LIT[:\s]+([a-zA-Z0-9_-]+)`: the literal, a non-empty
run of `[:\s]`, then the non-empty capture run. -/
def tryLitSepCap (lit : List Char) (s : List Char) : Option (List Char) :=
  match matchLit lit s with
  | none => none
  | some rest =>
    let sep := rest.takeWhile isSepColon
    let rest2 := rest.dropWhile isSepColon
    if sep.isEmpty then none
    else
      let cap := rest2.takeWhile isCapChar
      if cap.isEmpty then none else some cap

/-- `re.search` for `LIT[:\s]+([a-zA-Z0-9_-]+)`: try every position left to
right. -/
def scanLitSepCap (lit : List Char) : List Char → Option (List Char)
  | [] => tryLitSepCap lit []
  | c :: cs =>
    match tryLitSepCap lit (c :: cs) with
    | some r => some r
    | none => scanLitSepCap lit cs

/-- Maximal word-character runs (the tokens delimited by `\b`). -/
def wordTokens : List Char → List (List Char) :=
  fun l => splitTok [] l
where
  splitTok : List Char → List Char → List (List Char)
    | acc, [] => if acc = [] then [] else [acc.reverse]
    | acc, c :: cs =>
      if isWordChar c then splitTok (c :: acc) cs
      else (if acc = [] then [] else [acc.reverse]) ++ splitTok [] cs

/-- `\b` between a previous character and the rest of the input. -/
def boundaryAt (prev : Char) (rest : List Char) : Bool :=
  match rest with
  | [] => isWordChar prev
  | c :: _ => isWordChar prev != isWordChar c

/-- `HybridSearchService._extract_merchant_id` (hybrid_search.py lines
439-466): six patterns in order, on the lower-cased text. -/
def extract_merchant_id (text : String) : Option String :=
  let l := (lowerStr text).data
  let pats : List (Option (List Char)) :=
    [ scanLitSepCap "merchant_id".data l,
      scanLitSepCap "mid".data l,
      scanLitSepCap "merchant".data l,
      (wordTokens l).find? (fun t =>
        "_test".data.isSuffixOf t ∧ "_test".length < t.length),
      (wordTokens l).find? (fun t =>
        "_prod".data.isSuffixOf t ∧ "_prod".length < t.length),
      (wordTokens l).find? (fun t =>
        ["snapdeal_test", "hdfc_merchant", "axis_merchant", "payu_merchant",
         "razorpay_merchant"].any (fun w => t = w.data)) ]
  (pats.findSome? id).map String.mk

/-- Gateway name alternatives of pattern 4 (hybrid_search.py line 485),
paired with their last character for the boundary test. -/
def gwNames : List (List Char × Char) :=
  [("pinelabs".data, 's'), ("hdfc".data, 'c'), ("axis".data, 's'),
   ("icici".data, 'i'), ("payu".data, 'u'), ("razorpay".data, 'y'),
   ("cashfree".data, 'e'), ("phonepe".data, 'e'), ("gpay".data, 'y'),
   ("amazonpay".data, 'y')]

/-- Optional suffix alternatives `(online|gateway|bank|pg)` with their last
characters. -/
def gwSuffixes : List (List Char × Char) :=
  [("online".data, 'e'), ("gateway".data, 'y'), ("bank".data, 'k'),
   ("pg".data, 'g')]

/-- The non-recursive part of the gateway pattern 4 continuation: either
`\b` holds right here, or a suffix alternative followed by `\b`. -/
def gwContHere (prev : Char) (rest : List Char) : Bool :=
  boundaryAt prev rest
    || gwSuffixes.any (fun sfx =>
         match matchLit sfx.1 rest with
         | some r2 => boundaryAt sfx.2 r2
         | none => false)

/-- Continuation of gateway pattern 4 after the name: `[\s_-]*` then an
optional suffix then `\b`, with full backtracking over the run length. -/
def gwCont : Char → List Char → Bool
  | prev, [] => gwContHere prev []
  | prev, c :: cs =>
    gwContHere prev (c :: cs) || (if isSepGW c then gwCont c cs else false)

/-- Gateway pattern 4 at one position: a name (at a word boundary) whose
continuation succeeds; alternatives are mutually non-prefix so at most one
name fits a given position. -/
def gwTryHere (s : List Char) : Option (List Char) :=
  gwNames.findSome? (fun nm =>
    match matchLit nm.1 s with
    | some rest => if gwCont nm.2 rest then some nm.1 else none
    | none => none)

/-- `re.search` for gateway pattern 4: scan every position left to right. -/
def gwScan : Option Char → List Char → Option (List Char)
  | prev, [] => if boundaryBefore prev then gwTryHere [] else none
  | prev, c :: cs =>
    match (if boundaryBefore prev then gwTryHere (c :: cs) else none) with
    | some r => some r
    | none => gwScan (some c) cs

/-- Continuation of gateway pattern 5 after the kind word: `[\s_-]*` then
the literal `gateway` then `\b`. -/
def gw5Cont : List Char → Bool
  | [] => false
  | c :: cs =>
    (match matchLit "gateway".data (c :: cs) with
     | some r2 => boundaryAt 'y' r2
     | none => false)
    || (if isSepGW c then gw5Cont cs else false)

/-- Kind words of gateway pattern 5 with their last characters. -/
def gw5Names : List (List Char × Char) :=
  [("upi".data, 'i'), ("card".data, 'd'), ("netbanking".data, 'g'),
   ("wallet".data, 't')]

/-- Gateway pattern 5 at one position. -/
def gw5TryHere (s : List Char) : Option (List Char) :=
  gw5Names.findSome? (fun nm =>
    match matchLit nm.1 s with
    | some rest => if gw5Cont rest then some nm.1 else none
    | none => none)

/-- `re.search` for gateway pattern 5
`\b(upi|card|netbanking|wallet)[\s_-]*gateway\b`. -/
def gw5Scan : Option Char → List Char → Option (List Char)
  | prev, [] => if boundaryBefore prev then gw5TryHere [] else none
  | prev, c :: cs =>
    match (if boundaryBefore prev then gw5TryHere (c :: cs) else none) with
    | some r => some r
    | none => gw5Scan (some c) cs

/-- Gateway pattern 2 at one position:
`payment[_\s]*gateway[:\s]+([a-zA-Z0-9_-]+)`. -/
def tryPayGw (s : List Char) : Option (List Char) :=
  match matchLit "payment".data s with
  | none => none
  | some rest =>
    let r1 := rest.dropWhile (fun c => c = '_' || c.isWhitespace)
    match matchLit "gateway".data r1 with
    | none => none
    | some r2 =>
      let sep := r2.takeWhile isSepColon
      let r3 := r2.dropWhile isSepColon
      if sep.isEmpty then none
      else
        let cap := r3.takeWhile isCapChar
        if cap.isEmpty then none else some cap

/-- `re.search` for gateway pattern 2. -/
def scanPayGw : List Char → Option (List Char)
  | [] => tryPayGw []
  | c :: cs =>
    match tryPayGw (c :: cs) with
    | some r => some r
    | none => scanPayGw cs

/-- Fuel-indexed body of `deleteOcc`; the fuel bounds the number of
consumed characters, so calling it with the input length is exact. -/
def deleteOccAux (pat : List Char) : Nat → List Char → List Char
  | _, [] => []
  | 0, l => l
  | fuel + 1, x :: xs =>
    if pat.isPrefixOf (x :: xs) ∧ ¬ pat.isEmpty then
      deleteOccAux pat fuel ((x :: xs).drop pat.length)
    else x :: deleteOccAux pat fuel xs

/-- Python `str.replace(pat, '')`, deleting every occurrence left to right. -/
def deleteOcc (pat l : List Char) : List Char := deleteOccAux pat l.length l

/-- `HybridSearchService._extract_payment_gateway` (hybrid_search.py lines
468-497): five patterns in order, then the `_gateway`/`_pg`/`_online`
suffixes deleted from the captured name. -/
def extract_payment_gateway (text : String) : Option String :=
  let l := (lowerStr text).data
  let pats : List (Option (List Char)) :=
    [ scanLitSepCap "pg".data l,
      scanPayGw l,
      scanLitSepCap "gateway".data l,
      gwScan none l,
      gw5Scan none l ]
  ((pats.findSome? id).map fun g =>
    deleteOcc "_online".data (deleteOcc "_pg".data (deleteOcc "_gateway".data g))).map
    String.mk

/-! ## Hybrid search: normalization, priority scoring, fusion
(hybrid_search.py lines 410-773) -/

/-- Search method tags (`result['search_type']`). -/
inductive SType where
  | semantic
  | bm25
  | tfidf
deriving Repr, DecidableEq

/-- Match type labels of `_calculate_priority_score` plus the exact-id label
used by `process_exact_ticket_query`. -/
inductive MatchType where
  | PERFECT_MERCHANT_GATEWAY_MATCH
  | MERCHANT_ID_MATCH
  | PAYMENT_GATEWAY_MATCH
  | SEMANTIC_MATCH
  | EXACT_ID
deriving Repr, DecidableEq

/-- The `match_details` dictionary of `_calculate_priority_score`. -/
structure MatchDetails where
  query_merchant : Option String
  query_gateway : Option String
  result_merchant : Option String
  result_gateway : Option String
  merchant_match : Bool
  gateway_match : Bool
  exact_match : Bool
deriving Repr, DecidableEq

/-- A fused search-result record (the dictionary assembled in
`_fuse_scores` lines 672-681, with the fields later code attaches;
per-method scores are the normalized group scores). -/
structure RRec where
  inc : Incident
  score : ℚ := 0
  fused_score : ℚ
  semantic_score : ℚ := 0
  bm25_score : ℚ := 0
  tfidf_score : ℚ := 0
  search_methods : List SType := []
  method_count : Nat := 1
  is_exact_match : Bool := false
  match_type : MatchType := .SEMANTIC_MATCH
  tag_match_score : ℚ := 0
  exact_match_boost : ℚ := 1
  precision_boosted_score : ℚ := 0
  relevance_score : ℚ := 0
  boosted_score : ℚ := 0
  ai_suggestion : String := ""
deriving Repr, DecidableEq

/-- `HybridSearchService._normalize_scores` (lines 410-437): min-max over
the method's result set; all-equal sets normalize to 1.0. -/
def normalize_scores : List (Incident × ℚ) → List (Incident × ℚ)
  | [] => []
  | r :: rest =>
    let mn := (rest.map (·.2)).foldl min r.2
    let mx := (rest.map (·.2)).foldl max r.2
    if mx = mn then (r :: rest).map (fun p => (p.1, (1 : ℚ)))
    else (r :: rest).map (fun p => (p.1, (p.2 - mn) / (mx - mn)))

/-- A normalized result tagged with its search method (the dictionaries in
`all_results`). -/
structure TRes where
  inc : Incident
  norm : ℚ
  stype : SType
deriving Repr, DecidableEq

/-- One entry of `result_groups`. -/
structure Group where
  metadata : Incident
  semantic_score : ℚ
  bm25_score : ℚ
  tfidf_score : ℚ
  search_types : List SType
deriving Repr, DecidableEq

/-- Lines 623-632: append the search type and store the method's
normalized score. -/
def applyOne (g : Group) (r : TRes) : Group :=
  let g := { g with search_types := g.search_types ++ [r.stype] }
  match r.stype with
  | .semantic => { g with semantic_score := r.norm }
  | .bm25 => { g with bm25_score := r.norm }
  | .tfidf => { g with tfidf_score := r.norm }

/-- A fresh group (lines 615-621). -/
def emptyGroup (inc : Incident) : Group :=
  { metadata := inc, semantic_score := 0, bm25_score := 0, tfidf_score := 0
    search_types := [] }

/-- One iteration of the grouping loop (lines 612-632) over the
insertion-ordered dictionary `result_groups`. -/
def addResult (gs : List (String × Group)) (r : TRes) : List (String × Group) :=
  if gs.any (fun p => p.1 = r.inc.id) then
    gs.map (fun p => if p.1 = r.inc.id then (p.1, applyOne p.2 r) else p)
  else gs ++ [(r.inc.id, applyOne (emptyGroup r.inc) r)]

/-- `result_groups` after the grouping loop. -/
def resultGroups (all : List TRes) : List (String × Group) :=
  all.foldl addResult []

/-- `HybridSearchService._calculate_priority_score` (lines 499-557). -/
def calculate_priority_score (query : String) (result : Incident) (base : ℚ) :
    ℚ × MatchType × MatchDetails :=
  let query_merchant := extract_merchant_id query
  let query_gateway := extract_payment_gateway query
  let result_text :=
    result.title ++ " " ++ result.description ++ " " ++ String.intercalate " " result.tags
  let result_merchant := extract_merchant_id result_text
  let result_gateway := extract_payment_gateway result_text
  let merchant_match :=
    match query_merchant, result_merchant with
    | some a, some b => lowerStr a = lowerStr b
    | _, _ => false
  let gateway_match :=
    match query_gateway, result_gateway with
    | some a, some b => lowerStr a = lowerStr b
    | _, _ => false
  let md : MatchDetails :=
    { query_merchant, query_gateway, result_merchant, result_gateway,
      merchant_match, gateway_match, exact_match := merchant_match && gateway_match }
  if merchant_match && gateway_match then
    (min (base * 2.5) 1, .PERFECT_MERCHANT_GATEWAY_MATCH, md)
  else if merchant_match then
    (min (base * 2) 0.95, .MERCHANT_ID_MATCH, md)
  else if gateway_match then
    (min (base * 1.5) 0.85, .PAYMENT_GATEWAY_MATCH, md)
  else
    (base, .SEMANTIC_MATCH, md)

/-- `HybridSearchService._detect_exact_match` (lines 559-597). -/
def detect_exact_match (query : String) (result : Incident) : Bool :=
  let query_lower := strip (lowerStr query)
  let title_lower := strip (lowerStr result.title)
  if query_lower = title_lower then true
  else
    let query_words := (splitWs query_lower).dedup
    let title_words := (splitWs title_lower).dedup
    if query_words.length > 0 ∧
        ((query_words.filter (· ∈ title_words)).length : ℚ) / query_words.length ≥ 0.8 then
      true
    else if result.tags.any (fun tag =>
        query_lower = lowerStr tag || strContains query_lower (lowerStr tag)) then
      true
    else
      (calculate_priority_score query result 1).2.1 = .PERFECT_MERCHANT_GATEWAY_MATCH

/-- Fusion weights (hybrid_search.py lines 60-62). -/
def semantic_weight : ℚ := 0.6

/-- BM25 fusion weight. -/
def bm25_weight : ℚ := 0.3

/-- TF-IDF fusion weight. -/
def tfidf_weight : ℚ := 0.1

/-- The boost chain applied to a group's weighted base score (lines
644-673): priority scoring, the exact-match ×1.2, the multi-method
agreement boost, and the final cap at 1.0. -/
def applyBoosts (query : String) (inc : Incident) (mc : Nat) (base : ℚ) : ℚ :=
  let e1 := (calculate_priority_score query inc base).1
  let e2 := if detect_exact_match query inc then min (e1 * 1.2) 1 else e1
  let e3 := if mc > 1 then e2 * (1 + 0.1 * ((mc : ℚ) - 1)) else e2
  min e3 1

/-- Lines 636-683: turn one group into a fused result record. -/
def fuseGroup (query : String) (g : Group) : RRec :=
  let base :=
    semantic_weight * g.semantic_score + bm25_weight * g.bm25_score +
      tfidf_weight * g.tfidf_score
  let mc := g.search_types.dedup.length
  { inc := g.metadata
    fused_score := applyBoosts query g.metadata mc base
    semantic_score := g.semantic_score
    bm25_score := g.bm25_score
    tfidf_score := g.tfidf_score
    search_methods := g.search_types.dedup
    method_count := mc
    is_exact_match := detect_exact_match query g.metadata
    match_type := (calculate_priority_score query g.metadata base).2.1 }

/-- `HybridSearchService._fuse_scores` (lines 599-688): group, fuse, then
`fused_results.sort(key=fused_score, reverse=True)` (stable). -/
def fuse_scores (all : List TRes) (query : String) : List RRec :=
  stableSortDesc (·.fused_score) ((resultGroups all).map (fun p => fuseGroup query p.2))

/-! ## The environment

Every effectful collaborator of the pipeline is an oracle recorded here.
The three sub-searches (`semantic_search`, `bm25_search`, `tfidf_search`)
wrap external engines (the embedding model + vector index, `rank_bm25`,
`scikit-learn`); each oracle is the engine's reply for this request — the
per-method hit list `(metadata, raw score)` — or an exception, which both
the sub-search's own `except` and `asyncio.gather(return_exceptions=True)`
turn into an empty result set.  `excExact` and `excMain` model an
unexpected exception reaching the `except Exception` handlers at
rag_service.py line 319 (inside `process_exact_ticket_query`) and line 1503
(the body of `process_rag_query`) respectively. -/
structure Env where
  corpus : List Incident
  semantic : Except String (List (Incident × ℚ))
  bm25 : Except String (List (Incident × ℚ))
  tfidf : Except String (List (Incident × ℚ))
  classifierResp : Except String String
  genResp : Except String String
  exactSummaryResp : Except String String
  excExact : Option String := none
  excMain : Option String := none

/-- An `Except` oracle collapsed to its result list, exceptions giving `[]`
(hybrid_search.py lines 717-732 and each sub-search's own handler). -/
def oracleList : Except String (List (Incident × ℚ)) → List (Incident × ℚ)
  | .ok l => l
  | .error _ => []

/-- Tag a normalized method result list with its search type. -/
def tagWith (st : SType) (l : List (Incident × ℚ)) : List TRes :=
  l.map (fun p => { inc := p.1, norm := p.2, stype := st })

/-- `HybridSearchService.hybrid_search` (lines 690-773): normalize each
method's scores, concatenate in semantic/BM25/TF-IDF order, fuse, filter by
`min_score`, truncate to `top_k`.  The sub-search calls are represented by
the oracles of `Env`; `top_k * 2` is what the source requests from them. -/
def hybrid_search (env : Env) (query : String) (top_k : Nat) (min_score : ℚ) :
    List RRec :=
  let semantic_results := normalize_scores (oracleList env.semantic)
  let bm25_results := normalize_scores (oracleList env.bm25)
  let tfidf_results := normalize_scores (oracleList env.tfidf)
  let all_results :=
    tagWith .semantic semantic_results ++ tagWith .bm25 bm25_results ++
      tagWith .tfidf tfidf_results
  if all_results.isEmpty then []
  else
    let fused_results := fuse_scores all_results query
    (fused_results.filter (fun r => r.fused_score ≥ min_score)).take top_k

/-! ## RAG service: semantic-relevance gate and confidence scorer
(rag_service.py lines 549-941) -/

/-- `RAGService._extract_query_domain` (lines 733-746). -/
def extract_query_domain (text : String) : String :=
  if ["wallet", "mobikwik", "paytm", "phonepe_wallet", "amazonpay"].any
      (fun t => strContains text t) then "wallet"
  else if ["card", "visa", "mastercard", "debit", "credit", "tokenization"].any
      (fun t => strContains text t) then "card"
  else if ["upi", "bhim", "gpay", "phonepe_upi"].any (fun t => strContains text t) then
    "upi"
  else if ["webhook", "callback", "notification"].any (fun t => strContains text t) then
    "webhook"
  else if ["gateway", "api", "integration"].any (fun t => strContains text t) then
    "gateway"
  else "general"

/-- The entity vocabulary of `_extract_query_entities` (lines 748-782):
merchants, gateways, banks and exact technical terms, in source order. -/
def entityVocab : List String :=
  ["snapdeal", "firstcry", "mobikwik", "citymall", "flipkart", "amazon",
   "pinelabs", "payu", "razorpay", "checkout", "stripe",
   "hdfc", "axis", "icici", "sbi", "kotak",
   "messagenotrecognized", "pkcs15", "rsa", "ssl", "tls",
   "internal_server_error", "timeout", "webhook", "callback",
   "tokenization", "encryption", "decryption", "signature",
   "authentication", "authorization", "validation"]

/-- `RAGService._extract_query_entities`: the vocabulary terms occurring as
substrings of the lower-cased text (a set; the vocabulary has no
duplicates, so the filtered list is duplicate-free). -/
def extract_query_entities (text : String) : List String :=
  entityVocab.filter (fun t => strContains (lowerStr text) t)

/-- `RAGService._extract_query_intent` (lines 913-922). -/
def extract_query_intent (text : String) : String :=
  if ["failed", "failing", "error", "timeout", "blocked"].any
      (fun t => strContains text t) then "troubleshooting"
  else if ["integrate", "integration", "setup", "configure"].any
      (fun t => strContains text t) then "integration"
  else if ["test", "testing", "sandbox", "debug"].any (fun t => strContains text t) then
    "testing"
  else "general"

/-- `RAGService._calculate_domain_compatibility` (lines 924-941). -/
def calculate_domain_compatibility (query_domain incident_domain : String) : ℚ :=
  if query_domain = incident_domain then 1
  else
    let related : List (String × List String) :=
      [("wallet", ["gateway", "general"]),
       ("card", ["gateway", "general"]),
       ("upi", ["gateway", "general"]),
       ("webhook", ["gateway", "general"]),
       ("gateway", ["wallet", "card", "upi", "webhook", "general"])]
    if (related.lookup query_domain |>.getD []).contains incident_domain then 0.5
    else 0.1

/-- The incident text used throughout the validator:
`f"{title} {description} {' '.join(tags)}".lower()`. -/
def incidentText (inc : Incident) : String :=
  lowerStr (inc.title ++ " " ++ inc.description ++ " " ++ String.intercalate " " inc.tags)

/-- The composite relevance score of one incident against the query
(lines 624-640). -/
def compositeScore (query_lower : String) (inc : Incident) : ℚ :=
  let t := incidentText inc
  let domain_match :=
    calculate_domain_compatibility (extract_query_domain query_lower)
      (extract_query_domain t)
  let query_entities := extract_query_entities query_lower
  let incident_entities := extract_query_entities t
  let entity_overlap :=
    ((query_entities.filter (· ∈ incident_entities)).length : ℚ) /
      (max query_entities.length 1)
  let intent_alignment : ℚ :=
    if extract_query_intent query_lower = extract_query_intent t then 1 else 0.3
  domain_match * 0.5 + entity_overlap * 0.3 + intent_alignment * 0.2

/-- One step of the best-match loop of `_validate_semantic_relevance`
(lines 621-662): keep the strictly better composite with its threshold
bracket as the reason string. -/
def bestStep (query_lower : String) (st : ℚ × String) (inc : RRec) : ℚ × String :=
  let c := compositeScore query_lower inc.inc
  if c > st.1 then
    (c,
      if c ≥ 0.6 then "high_semantic_relevance"
      else if c ≥ 0.4 then "moderate_semantic_relevance"
      else if c ≥ 0.2 then "weak_semantic_relevance"
      else "no_semantic_relevance")
  else st

/-- The best-match loop over all candidates. -/
def bestMatchLoop (query_lower : String) (incidents : List RRec) : ℚ × String :=
  incidents.foldl (bestStep query_lower) (0, "no_semantic_overlap")

/-- The maximum hybrid score of the candidates (lines 669-673). -/
def maxHybridScore (incidents : List RRec) : ℚ :=
  incidents.foldl (fun m inc => if inc.fused_score > m then inc.fused_score else m) 0

/-- `RAGService._validate_semantic_relevance` (lines 588-731). -/
def validate_semantic_relevance (query : String) (incidents : List RRec) :
    Bool × String :=
  if incidents.isEmpty then (false, "no_incidents_retrieved")
  else
    let query_lower := lowerStr query
    let best := bestMatchLoop query_lower incidents
    let max_hybrid_score := maxHybridScore incidents
    if max_hybrid_score ≥ 0.8 then (true, "high_hybrid_confidence")
    else if best.1 ≥ 0.6 then (true, best.2)
    else if best.1 ≥ 0.3 then (true, best.2)
    else if max_hybrid_score ≥ 0.5 ∧ best.1 ≥ 0.1 then
      (true, "hybrid_search_confidence")
    else (false, "insufficient_semantic_overlap")

/-- `RAGService._calculate_confidence_score` (lines 549-586). -/
def calculate_confidence_score (incidents : List RRec)
    (query_complexity : QueryComplexity) : ℚ :=
  match incidents with
  | [] => 0
  | top :: _ =>
    let top_score := top.fused_score
    let confidence :=
      match query_complexity with
      | .SIMPLE => min (top_score * 1.2) 1
      | .COMPLEX =>
        let firstThree := incidents.take 3
        let avg_score :=
          (firstThree.foldl (fun s inc => s + inc.fused_score) 0) /
            (min 3 incidents.length : ℚ)
        min (avg_score * 1.1) 1
      | .UNKNOWN => min (top_score * 0.8) 1
    if top.method_count > 1 then min (confidence * 1.1) 1 else confidence

/-! ## RAG service: precision filtering, boosting and reranking
(rag_service.py lines 784-1143) -/

/-- The exact technical terms of `_extract_exact_technical_terms` (lines
784-814): error codes, technical standards and gateway-specific terms. -/
def exactTermVocab : List String :=
  ["messagenotrecognized", "transienterror", "invalidrequest",
   "authenticationfailed", "insufficientfunds", "cardexpired",
   "invalidcvv", "invalidpin", "cardblocked", "limitexceeded",
   "pkcs15", "pkcs1", "rsa", "aes", "sha256", "hmac",
   "jwt", "oauth", "ssl", "tls", "x509",
   "pinelabs-online", "checkout", "razorpay", "payu",
   "amazonpay", "phonepe", "gpay", "paytm"]

/-- `RAGService._extract_exact_technical_terms`. -/
def extract_exact_technical_terms (text : String) : List String :=
  exactTermVocab.filter (fun t => strContains (lowerStr text) t)

/-- `RAGService._calculate_exact_match_boost` (lines 816-853). -/
def calculate_exact_match_boost (query : String) (inc : Incident) : ℚ :=
  let query_exact_terms := extract_exact_technical_terms query
  let incident_text :=
    inc.title ++ " " ++ inc.description ++ " " ++ String.intercalate " " inc.tags
  let incident_exact_terms := extract_exact_technical_terms incident_text
  if query_exact_terms.isEmpty then 1
  else
    let ratio :=
      ((query_exact_terms.filter (· ∈ incident_exact_terms)).length : ℚ) /
        query_exact_terms.length
    if ratio ≥ 0.8 then 10
    else if ratio ≥ 0.6 then 5
    else if ratio ≥ 0.4 then 2
    else if ratio ≥ 0.2 then 1.5
    else 1

/-- `RAGService._filter_by_tags` (lines 855-911): score incidents by tag
relevance against the query's entities and exact terms, drop tagged
incidents with no overlap, and sort by the tag score (stable descending). -/
def filter_by_tags (query : String) (incidents : List RRec) : List RRec :=
  if incidents.isEmpty then incidents
  else
    let all_query_terms :=
      (extract_query_entities query ++ extract_exact_technical_terms query).dedup
    if all_query_terms.isEmpty then incidents
    else
      let scored := incidents.filterMap (fun r =>
        let incident_tags := r.inc.tags.map lowerStr
        let tag_matches := (all_query_terms.filter (fun term =>
          incident_tags.any (fun tag =>
            strContains tag term || strContains term tag))).length
        let ratio : ℚ := (tag_matches : ℚ) / (max all_query_terms.length 1)
        if ratio > 0 then some { r with tag_match_score := ratio }
        else if incident_tags.length = 0 then some { r with tag_match_score := ratio }
        else none)
      stableSortDesc (·.tag_match_score) scored

/-- `RAGService._calculate_domain_penalty` (lines 1081-1143). -/
def calculate_domain_penalty (query_text incident_text : String) : ℚ :=
  let wallet_terms := ["wallet", "mobikwik", "paytm", "phonepe", "amazonpay", "freecharge"]
  let card_terms := ["card", "visa", "mastercard", "rupay", "amex", "debit", "credit"]
  let upi_terms := ["upi", "bhim", "gpay", "phonepe_upi"]
  let ql := lowerStr query_text
  let il := lowerStr incident_text
  let qw := wallet_terms.any (fun t => strContains ql t)
  let qc := card_terms.any (fun t => strContains ql t)
  let qu := upi_terms.any (fun t => strContains ql t)
  let iw := wallet_terms.any (fun t => strContains il t)
  let ic := card_terms.any (fun t => strContains il t)
  let iu := upi_terms.any (fun t => strContains il t)
  if ¬ (qw ∨ qc ∨ qu) ∨ ¬ (iw ∨ ic ∨ iu) then 0.1
  else if ¬ ((qw ∧ iw) ∨ (qc ∧ ic) ∨ (qu ∧ iu)) then 0.7
  else 0

/-- `RAGService._calculate_relevance_score` (lines 1004-1079). -/
def calculate_relevance_score (query_text incident_text : String) : ℚ :=
  let domain_penalty := calculate_domain_penalty query_text incident_text
  let entities := ["snapdeal", "pinelabs", "firstcry", "mobikwik", "payu",
                   "razorpay", "citymall"]
  let tech_terms := ["gateway", "api", "error", "timeout", "payment",
                     "transaction", "integration", "wallet", "flow"]
  let error_patterns := ["internal_server_error", "server_error", "500", "rsa",
                         "decryption", "encryption", "invalid_data"]
  let bothCount (l : List String) : Nat :=
    (l.filter (fun t => strContains query_text t ∧ strContains incident_text t)).length
  let queryCount (l : List String) : Nat :=
    (l.filter (fun t => strContains query_text t)).length
  let entity_matches := bothCount entities
  let tech_matches := bothCount tech_terms
  let error_matches := bothCount error_patterns
  let max_entities := queryCount entities
  let max_tech := queryCount tech_terms
  let max_errors := queryCount error_patterns
  let entity_score : ℚ :=
    if max_entities > 0 then (entity_matches : ℚ) / (max max_entities 1) else 0
  let tech_score : ℚ :=
    if max_tech > 0 then (tech_matches : ℚ) / (max max_tech 1) else 0
  let error_score : ℚ :=
    if max_errors > 0 then (error_matches : ℚ) / (max max_errors 1) else 0
  let base_score := entity_score * 0.6 + tech_score * 0.25 + error_score * 0.15
  min (base_score * (1 - domain_penalty)) 1

/-- `RAGService._rerank_incidents_by_relevance` (lines 943-1002). -/
def rerank_incidents_by_relevance (query : String) (incidents : List RRec) :
    List RRec :=
  if incidents.isEmpty then incidents
  else
    let query_lower := lowerStr query
    let scored := incidents.map (fun r =>
      let incident_text := incidentText r.inc
      let relevance_score := calculate_relevance_score query_lower incident_text
      let original_score := r.fused_score
      let boosted_score :=
        if relevance_score > 0.8 then min (original_score * 1.5) 1
        else if relevance_score > 0.5 then min (original_score * 1.2) 1
        else original_score
      { r with relevance_score, boosted_score })
    stableSortDesc (·.boosted_score) scored

/-! ## RAG service: response assembly and the orchestrator
(rag_service.py lines 123-338, 1198-1517) -/

/-- The final structured response (rag_service.py `RAGResponse`; the
wall-clock fields `execution_time_ms` and `timestamp` are not modelled). -/
structure RAGResponse where
  query : String
  generated_answer : String
  retrieved_incidents : List RRec
  sources : List String
  confidence_score : ℚ
  query_complexity : QueryComplexity
  rag_strategy : String
deriving Repr, DecidableEq

/-- Three-decimal rendering of a score, modelling Python's `f"{x:.3f}"`
(the exact tie-breaking of binary-float rounding is not reproduced; no
claim concerns the rendered digits). -/
def fmtScore3 (q : ℚ) : String :=
  let m : Int := round (q * 1000)
  let n := m.natAbs
  let ip := n / 1000
  let fp := n % 1000
  let fps := toString fp
  let pad := if fps.length = 1 then "00" else if fps.length = 2 then "0" else ""
  (if m < 0 then "-" else "") ++ toString ip ++ "." ++ pad ++ fps

/-- `RAGService._extract_sources` (lines 1241-1260). -/
def extract_sources (incidents : List RRec) : List String :=
  incidents.map (fun r =>
    "[" ++ r.inc.id ++ "] " ++ takeStr 60 r.inc.title ++
      (if r.inc.title.length > 60 then "..." else "") ++
      " (Score: " ++ fmtScore3 r.fused_score ++ ")")

/-- `RAGService._generate_no_results_response` (lines 1198-1239). -/
def generate_no_results_response (query : String) : String :=
  let words := splitWs (lowerStr query)
  let stopish := ["with", "from", "that", "this", "have", "been", "were", "they",
                  "there", "where", "when", "what", "which", "would", "could", "should"]
  let key_terms := (words.filter (fun w => w.length > 3 ∧ w ∉ stopish)).take 5
  "🔍 **No Relevant Historical Incidents Found**\n\n❌ I couldn't find any past incidents closely related to your specific issue:\n\"" ++
    query ++
    "\"\n\n💡 **This appears to be a new type of issue** not well-covered in our current knowledge base.\n\n🚀 **Recommended Next Steps:**\n• Contact the relevant integration team directly\n• Check official API documentation for the services mentioned\n• Review your dashboard/configuration settings\n• Search internal documentation or Slack channels\n• Escalate to the team that owns the affected service\n\n📝 **Keywords for future searches:** " ++
    (if key_terms.isEmpty then "payment, integration, error"
     else String.intercalate ", " key_terms) ++
    "\n\n🔄 **Help us improve:** Once this issue is resolved, please document the solution so future engineers can benefit from your experience.\n\n---\n*This honest \"no results\" response helps maintain trust by not forcing irrelevant matches.*"

/-- `RAGService.classify_query_complexity` (lines 442-497) with an empty
classifier cache: the chat oracle's reply mapped by substring, any failure
defaulting to SIMPLE. -/
def classify_query_complexity (env : Env) : QueryComplexity :=
  match env.classifierResp with
  | .error _ => .SIMPLE
  | .ok txt =>
    let classification := lowerStr (strip txt)
    if strContains classification "simple" then .SIMPLE
    else if strContains classification "complex" then .COMPLEX
    else .UNKNOWN

/-- `RAGService.generate_rag_response` (lines 1305-1364): the chat oracle's
reply, or the deterministic fallback.  (The prompt assembled from the
context blocks only feeds the chat oracle and does not influence any
modelled observable.) -/
def generate_rag_response (env : Env) (incidents : List RRec) : String :=
  match env.genResp with
  | .ok s => strip s
  | .error _ =>
    match incidents with
    | top :: _ =>
      "Fix Suggestion: Based on incident " ++ top.inc.id ++ ", try: " ++
        takeStr 100 top.inc.resolution ++ "..."
    | [] =>
      "No relevant past incidents found for this specific issue. Please consult your team or documentation."

/-- `RAGService.fetch_exact_ticket_by_id` (lines 123-164): the first
corpus record whose id matches case-insensitively. -/
def fetch_exact_ticket_by_id (env : Env) (ticket_id : String) : Option Incident :=
  env.corpus.find? (fun inc =>
    (lowerStr inc.id) = (lowerStr ticket_id))

/-- `RAGService.generate_exact_ticket_summary` (lines 166-221). -/
def generate_exact_ticket_summary (env : Env) (inc : Incident) : String :=
  match env.exactSummaryResp with
  | .ok s => strip s
  | .error _ =>
    "Issue: " ++ inc.title ++ ". Resolution: " ++ takeStr 100 inc.resolution ++
      (if inc.resolution.length > 100 then "..." else "")

/-- The not-found message of `process_exact_ticket_query` (line 251). -/
def notFoundMessage (ticket_id : String) : String :=
  "🔍 **Ticket Not Found**\n\n❌ Ticket `" ++ ticket_id ++
    "` was not found in the knowledge base.\n\n**Possible reasons:**\n• Ticket ID may be incorrect\n• Ticket not yet indexed in the system\n• Ticket may be from a different system\n\n**What you can do:**\n• Double-check the ticket ID\n• Try searching with keywords from the issue\n• Contact the team that created the ticket"

/-- The formatted answer of the exact-id branch (lines 268-286); the
wall-clock milliseconds are rendered as 0. -/
def exactAnswer (inc : Incident) (ai_summary : String) : String :=
  "🎯 **EXACT TICKET FOUND** - " ++ inc.id ++ "\n$" ++
    String.mk (List.replicate 50 '━') ++
    "\n\n📋 **" ++ inc.title ++ "**\n\n🤖 **AI Summary:** " ++ ai_summary ++
    "\n\n**📝 Full Description:**\n" ++ inc.description ++
    "\n\n**🔧 Resolution:**\n" ++ inc.resolution ++
    "\n\n**👨‍💻 Resolved by:** " ++ inc.resolved_by ++
    "\n**📅 Date:** " ++ inc.created_at ++
    "\n**🏷️ Tags:** " ++
    (if inc.tags.isEmpty then "None"
     else String.intercalate ", " (inc.tags.map (fun t => "`" ++ t ++ "`"))) ++
    "\n\n---\n⚡ *Exact ID lookup completed in 0ms • Match Type: EXACT_ID • Confidence: 100%*"

/-- `RAGService.process_exact_ticket_query` (lines 223-338).  An injected
`excExact` models an unexpected exception reaching the handler at line 319
(e.g. malformed record fields raising during response formatting). -/
def process_exact_ticket_query (env : Env) (query ticket_id : String) : RAGResponse :=
  match env.excExact with
  | some e =>
    { query
      generated_answer :=
        "❌ **Error fetching ticket " ++ ticket_id ++
          "**\n\nAn error occurred while looking up the exact ticket: " ++ e
      retrieved_incidents := []
      sources := []
      confidence_score := 0
      query_complexity := .UNKNOWN
      rag_strategy := "exact_id_error" }
  | none =>
    match fetch_exact_ticket_by_id env ticket_id with
    | none =>
      { query
        generated_answer := notFoundMessage ticket_id
        retrieved_incidents := []
        sources := []
        confidence_score := 1
        query_complexity := .SIMPLE
        rag_strategy := "exact_id_not_found" }
    | some ticket_data =>
      let ai_summary := generate_exact_ticket_summary env ticket_data
      let formatted_ticket : RRec :=
        { inc := ticket_data, ai_suggestion := ai_summary, score := 1,
          fused_score := 1, match_type := .EXACT_ID }
      { query
        generated_answer := exactAnswer ticket_data ai_summary
        retrieved_incidents := [formatted_ticket]
        sources := ["[EXACT] " ++ ticket_data.id ++ " - " ++ takeStr 60 ticket_data.title]
        confidence_score := 1
        query_complexity := .SIMPLE
        rag_strategy := "exact_id_lookup" }

/-- Retrieval parameters by complexity (lines 1277-1286). -/
def retrievalParams : QueryComplexity → Nat × ℚ
  | .SIMPLE => (3, 0.2)
  | .COMPLEX => (8, 0.15)
  | .UNKNOWN => (3, 0.3)

/-- Steps 2-3 of `process_rag_query` (lines 1393-1413): retrieval followed
by tag filtering, exact-match boosting (with the re-sort by the boosted
score) and relevance reranking, all skipped when retrieval was empty. -/
def mainCandidates (env : Env) (query : String) (qc : QueryComplexity) : List RRec :=
  let p := retrievalParams qc
  let incidents := hybrid_search env query p.1 p.2
  if incidents.isEmpty then incidents
  else
    let incidents := filter_by_tags query incidents
    let incidents := incidents.map (fun r =>
      let exact_boost := calculate_exact_match_boost query r.inc
      { r with
        exact_match_boost := exact_boost
        precision_boosted_score := min (r.fused_score * exact_boost) 1 })
    let incidents := stableSortDesc (·.precision_boosted_score) incidents
    rerank_incidents_by_relevance query incidents

/-- Steps 1-7 of the non-exact-id path of `process_rag_query`
(lines 1390-1501). -/
def mainPipeline (env : Env) (query : String) : RAGResponse :=
  let query_complexity := classify_query_complexity env
  let incidents := mainCandidates env query query_complexity
  let v := validate_semantic_relevance query incidents
  if incidents.isEmpty ∨ ¬ v.1 then
    { query
      generated_answer := generate_no_results_response query
      retrieved_incidents := []
      sources := []
      confidence_score := 0
      query_complexity
      rag_strategy := "no_relevant_results" }
  else
    let confidence_score := calculate_confidence_score incidents query_complexity
    if confidence_score < 0.4 then
      { query
        generated_answer := generate_no_results_response query
        retrieved_incidents := []
        sources := []
        confidence_score
        query_complexity
        rag_strategy := "low_confidence_rejected" }
    else
      { query
        generated_answer := generate_rag_response env incidents
        retrieved_incidents := incidents
        sources := extract_sources incidents
        confidence_score
        query_complexity
        rag_strategy :=
          query_complexity.value ++ "_query_with_" ++ toString incidents.length ++
            "_incidents" }

/-- `RAGService.process_rag_query` (lines 1366-1517): exact-id dispatch,
then the main pipeline; an injected `excMain` models an unexpected
exception in the body reaching the handler at line 1503, which emits the
error-fallback response. -/
def process_rag_query (env : Env) (query : String) : RAGResponse :=
  match extract_exact_ticket_id query with
  | some ticket_id => process_exact_ticket_query env query ticket_id
  | none =>
    match env.excMain with
    | some e =>
      { query
        generated_answer := "RAG pipeline error: " ++ e
        retrieved_incidents := []
        sources := []
        confidence_score := 0
        query_complexity := .UNKNOWN
        rag_strategy := "error_fallback" }
    | none => mainPipeline env query

/-! ## API layer (app/api/rag.py lines 95-221) -/

/-- The API's `RAGResult` (wall-clock fields omitted). -/
structure RAGResult where
  query : String
  generated_answer : String
  confidence_score : ℚ
  query_complexity : String
  rag_strategy : String
  sources : List String
  retrieved_incidents : List RRec
deriving Repr, DecidableEq

/-- The domain-rejection reply (rag.py lines 134-153). -/
def domainFilterResult (query : String) : RAGResult :=
  { query
    generated_answer := "I specialize in payment-related issues only. Please ask about UPI transactions, payment gateways, card processing, bank integrations, payment errors, or other payment-related topics."
    confidence_score := 1
    query_complexity := "domain_rejection"
    rag_strategy := "domain_filter"
    sources := []
    retrieved_incidents := [] }

/-- The `/api/v1/rag/query` endpoint (rag.py lines 95-206): empty queries
are rejected with HTTP 400 (modelled as the error case), non-payment
queries get the domain-filter response, and anything else is handed to the
RAG service and converted. -/
def api_process_rag_query (env : Env) (query : String) (include_sources : Bool) :
    Except Nat RAGResult :=
  if (stripL query.data).isEmpty then .error 400
  else if ¬ is_payment_domain_query query then .ok (domainFilterResult query)
  else
    let r := process_rag_query env query
    .ok
      { query := r.query
        generated_answer := r.generated_answer
        confidence_score := r.confidence_score
        query_complexity := r.query_complexity.value
        rag_strategy := r.rag_strategy
        sources := if include_sources then r.sources else []
        retrieved_incidents := r.retrieved_incidents }

/-- Lookup in the insertion-ordered dictionary `result_groups`. -/
def lookupG (gs : List (String × Group)) (id : String) : Option Group :=
  (gs.find? (fun p => p.1 = id)).map (·.2)

/-- Well-formedness of `result_groups`: distinct keys, and every key is the
id of its group's metadata. -/
def GoodGroups (gs : List (String × Group)) : Prop :=
  (gs.map (·.1)).Nodup ∧ ∀ p ∈ gs, p.2.metadata.id = p.1

/-- The normalized score a method contributed for an id: the score of its
`find?` hit, or 0 when the method did not return that incident. -/
def methodScore (l : List (Incident × ℚ)) (id : String) : ℚ :=
  ((l.find? (fun p => p.1.id = id)).map (·.2)).getD 0

/-- The three tagged, normalized result lists concatenated, as built inside
`hybrid_search`. -/
def allResults (env : Env) : List TRes :=
  tagWith .semantic (normalize_scores (oracleList env.semantic)) ++
    tagWith .bm25 (normalize_scores (oracleList env.bm25)) ++
    tagWith .tfidf (normalize_scores (oracleList env.tfidf))

/-- A throwaway record for `List.getD`. -/
def dummyRec : RRec :=
  { inc := ⟨"", "", "", "", [], "", ""⟩, fused_score := 0 }

/-- The strategy string of an API reply, if any. -/
def apiStrategy (x : Except Nat RAGResult) : Option String :=
  match x with
  | .ok r => some r.rag_strategy
  | .error _ => none

/-! ## Claim-side definitions (written from the specification's wording,
for comparison with the source-derived behaviour) -/

/-- The citation tag a source line must start with: the claim's
`"[<id>] "`, except on the exact-id path where the code emits
`"[EXACT] <id> - "` (the amended form of C8). -/
def srcTag (strategy id : String) : String :=
  if strategy = "exact_id_lookup" then "[EXACT] " ++ id ++ " - "
  else "[" ++ id ++ "] "

/-- The amended decision table of the relevance gate (claim C4 corrected in
the `[0.3, 0.4)` band, whose reason string is `weak_semantic_relevance`):
`M` is the highest fused hybrid score, `B` the best composite. -/
def gateSpec (M B : ℚ) : Bool × String :=
  if M ≥ 0.8 then (true, "high_hybrid_confidence")
  else if B ≥ 0.6 then (true, "high_semantic_relevance")
  else if B ≥ 0.4 then (true, "moderate_semantic_relevance")
  else if B ≥ 0.3 then (true, "weak_semantic_relevance")
  else if M ≥ 0.5 ∧ B ≥ 0.1 then (true, "hybrid_search_confidence")
  else (false, "insufficient_semantic_overlap")

/-- The payment-domain vocabulary exactly as claim C2 words it: the named
terms plus the closed list of bank/PSP names including `irctc` (the code's
list stands in for the unnamed members of that closed list). -/
def claimPaymentVocab : List String :=
  ["payment", "upi", "gateway", "card", "wallet", "bank", "refund",
   "settlement", "webhook", "api", "integration", "timeout", "error",
   "merchant", "irctc",
   "pinelabs", "payu", "razorpay", "hdfc", "axis", "icici", "sbi", "kotak",
   "visa", "mastercard", "mobikwik", "paytm", "phonepe", "gpay", "amazonpay"]

/-- The ordering claim C9 asserts: strictly descending fused score, ties by
method count descending then id ascending. -/
def C9TieBreakOrdered (l : List RRec) : Prop :=
  l.Pairwise (fun a b =>
    b.fused_score < a.fused_score ∨
      (a.fused_score = b.fused_score ∧
        (b.method_count < a.method_count ∨
          (a.method_count = b.method_count ∧ a.inc.id ≤ b.inc.id))))

/-! ## Concrete environments for witnesses and counterexamples -/

/-- A quiescent environment: empty corpus, empty search replies, healthy
chat oracles. -/
def baseEnv : Env :=
  { corpus := [], semantic := .ok [], bm25 := .ok [], tfidf := .ok [],
    classifierResp := .ok "simple", genResp := .ok "All good.",
    exactSummaryResp := .ok "Summary." }

/-- The JSP-1046 incident of the specification's scenario table. -/
def jsp1046 : Incident :=
  { id := "JSP-1046", title := "Webhook signature mismatch on callback",
    description := "Signature header mismatch", resolution := "Rotate the secret",
    tags := ["webhook", "signature"], created_at := "2024-01-01",
    resolved_by := "eng" }

/-- Environment whose corpus contains JSP-1046. -/
def envJsp : Env := { baseEnv with corpus := [jsp1046] }

/-- Environment with an exception injected inside the exact-id branch. -/
def envExcExact : Env := { envJsp with excExact := some "boom" }

/-- Environment with an exception injected in the main pipeline body. -/
def envExcMain : Env := { baseEnv with excMain := some "boom" }

/-- A wallet incident returned by the semantic oracle with raw score 0.9;
drives the main pipeline to a confident answer. -/
def walletInc : Incident :=
  { id := "A1", title := "Wallet timeout", description := "d", resolution := "r",
    tags := ["wallet"], created_at := "2024", resolved_by := "x" }

/-- Environment for the happy main-pipeline path. -/
def envWallet : Env := { baseEnv with semantic := .ok [(walletInc, 0.9)] }

/-- Candidate whose composite relevance lands in `[0.3, 0.4)`: related
domain (0.5), no entity overlap, differing intent. -/
def gatewayInc : Incident :=
  { id := "X", title := "gateway api", description := "", resolution := "",
    tags := [], created_at := "", resolved_by := "" }

/-- The fused record carrying `gatewayInc` with hybrid score 0.6. -/
def gatewayRec : RRec :=
  { inc := gatewayInc, fused_score := 0.6, semantic_score := 1,
    search_methods := [.semantic], method_count := 1 }

/-- Incidents for the tie-break counterexample. -/
def incD : Incident :=
  { id := "D", title := "t1", description := "", resolution := "", tags := [],
    created_at := "", resolved_by := "" }

/-- Second tie-break incident. -/
def incB : Incident :=
  { id := "B", title := "t2", description := "", resolution := "", tags := [],
    created_at := "", resolved_by := "" }

/-- Third tie-break incident. -/
def incE : Incident :=
  { id := "E", title := "t3", description := "", resolution := "", tags := [],
    created_at := "", resolved_by := "" }

/-- Fourth tie-break incident. -/
def incA : Incident :=
  { id := "A", title := "t4", description := "", resolution := "", tags := [],
    created_at := "", resolved_by := "" }

/-- Environment producing a fused-score tie: `B` (semantic only, one
method) and `A` (BM25+TF-IDF, two methods) both fuse to 11/25. -/
def envTie : Env :=
  { baseEnv with
    semantic := .ok [(incD, 15), (incB, 11), (incE, 0)]
    bm25 := .ok [(incA, 5)]
    tfidf := .ok [(incA, 2)] }

/-- Environment whose semantic reply makes the min-scoring incident
normalize to 0 on every method. -/
def envZero : Env :=
  { baseEnv with semantic := .ok [(incA, 5), (incB, 1)] }

/-- The API conversion of the exact-id-not-found response for the query
`JSP-9999` against an empty corpus. -/
def jspMissReply : RAGResult :=
  { query := "JSP-9999"
    generated_answer := notFoundMessage "JSP-9999"
    confidence_score := 1
    query_complexity := "simple"
    rag_strategy := "exact_id_not_found"
    sources := []
    retrieved_incidents := [] }

/-! ## Sanity checks of the embedding on concrete inputs -/

example : extract_exact_ticket_id "please fix JSP-1046 asap" = some "JSP-1046" := by decide

example : extract_exact_ticket_id "jsp-77." = some "JSP-77" := by decide

example : extract_exact_ticket_id "XJSP-1046" = none := by decide

example : extract_exact_ticket_id "JSP-12ab but BUG-3 ok" = some "BUG-3" := by decide

example : extract_exact_ticket_id "see SLACK-123-456 thread" = some "SLACK-123-456" := by decide

example : extract_exact_ticket_id "BUG-1 and JSP-2" = some "JSP-2" := by decide

example : extract_merchant_id "merchant snapdeal (MID: snapdeal_test)" = some "snapdeal_test" := by
  decide

example : extract_merchant_id "no merchants here" = none := by decide

example : extract_payment_gateway "pinelabs_online INTERNAL_SERVER_ERROR" = some "pinelabs" := by
  decide

example : extract_payment_gateway "wallet failed" = none := by decide

example : extract_payment_gateway "hdfc bank down" = some "hdfc" := by decide

example : extract_payment_gateway "pg: payu_gateway now" = some "payu" := by decide

/-! ## General lemmas about the helper functions -/

theorem foldl_min_le_init (l : List ℚ) (a : ℚ) : l.foldl min a ≤ a := by
  induction l generalizing a with
  | nil => simp
  | cons x xs ih => exact le_trans (ih (min a x)) (min_le_left a x)

theorem foldl_min_le_mem (l : List ℚ) : ∀ (a : ℚ) {x : ℚ}, x ∈ l →
    l.foldl min a ≤ x := by
  induction l with
  | nil => intro a x h; cases h
  | cons y ys ih =>
    intro a x h
    rcases List.mem_cons.1 h with rfl | hx
    · exact le_trans (foldl_min_le_init ys (min a x)) (min_le_right a x)
    · exact ih (min a y) hx

theorem le_foldl_max_init (l : List ℚ) (a : ℚ) : a ≤ l.foldl max a := by
  induction l generalizing a with
  | nil => simp
  | cons x xs ih => exact le_trans (le_max_left a x) (ih (max a x))

theorem le_foldl_max_mem (l : List ℚ) : ∀ (a : ℚ) {x : ℚ}, x ∈ l →
    x ≤ l.foldl max a := by
  induction l with
  | nil => intro a x h; cases h
  | cons y ys ih =>
    intro a x h
    rcases List.mem_cons.1 h with rfl | hx
    · exact le_trans (le_max_right a x) (le_foldl_max_init ys (max a x))
    · exact ih (max a y) hx

theorem foldl_min_const (xs : List ℚ) (a : ℚ) (h : ∀ x ∈ xs, x = a) :
    xs.foldl min a = a := by
  induction xs with
  | nil => rfl
  | cons y ys ih =>
    have hy := h y (List.mem_cons_self _ _)
    subst hy
    rw [List.foldl_cons, min_self]
    exact ih (fun x hx => h x (List.mem_cons_of_mem _ hx))

theorem foldl_max_const (xs : List ℚ) (a : ℚ) (h : ∀ x ∈ xs, x = a) :
    xs.foldl max a = a := by
  induction xs with
  | nil => rfl
  | cons y ys ih =>
    have hy := h y (List.mem_cons_self _ _)
    subst hy
    rw [List.foldl_cons, max_self]
    exact ih (fun x hx => h x (List.mem_cons_of_mem _ hx))

theorem mem_insertByKeyDesc (key : α → ℚ) (x : α) (l : List α) (y : α) :
    y ∈ insertByKeyDesc key x l ↔ y = x ∨ y ∈ l := by
  induction l with
  | nil => simp [insertByKeyDesc]
  | cons z zs ih =>
    by_cases h : key x > key z
    · simp [insertByKeyDesc, h]
    · simp only [insertByKeyDesc, if_neg h, List.mem_cons, ih]
      tauto

theorem pairwise_insertByKeyDesc (key : α → ℚ) (x : α) (l : List α)
    (h : l.Pairwise (fun a b => key b ≤ key a)) :
    (insertByKeyDesc key x l).Pairwise (fun a b => key b ≤ key a) := by
  induction l with
  | nil => simp [insertByKeyDesc]
  | cons z zs ih =>
    rw [List.pairwise_cons] at h
    by_cases hzx : key x > key z
    · rw [insertByKeyDesc, if_pos hzx, List.pairwise_cons]
      refine ⟨?_, List.pairwise_cons.2 h⟩
      intro b hb
      rcases List.mem_cons.1 hb with rfl | hb
      · exact le_of_lt hzx
      · exact le_trans (h.1 b hb) (le_of_lt hzx)
    · rw [insertByKeyDesc, if_neg hzx, List.pairwise_cons]
      refine ⟨?_, ih h.2⟩
      intro b hb
      rcases (mem_insertByKeyDesc key x zs b).1 hb with rfl | hb
      · exact le_of_not_lt hzx
      · exact h.1 b hb

theorem pairwise_foldl_insert (key : α → ℚ) (l : List α) :
    ∀ acc : List α, acc.Pairwise (fun a b => key b ≤ key a) →
      (l.foldl (fun acc x => insertByKeyDesc key x acc) acc).Pairwise
        (fun a b => key b ≤ key a) := by
  induction l with
  | nil => intro acc h; exact h
  | cons x xs ih =>
    intro acc h
    exact ih (insertByKeyDesc key x acc) (pairwise_insertByKeyDesc key x acc h)

theorem pairwise_stableSortDesc (key : α → ℚ) (l : List α) :
    (stableSortDesc key l).Pairwise (fun a b => key b ≤ key a) :=
  pairwise_foldl_insert key l [] (List.Pairwise.nil)

theorem mem_foldl_insert (key : α → ℚ) (l : List α) :
    ∀ (acc : List α) (y : α),
      y ∈ l.foldl (fun acc x => insertByKeyDesc key x acc) acc ↔ y ∈ acc ∨ y ∈ l := by
  induction l with
  | nil => simp
  | cons x xs ih =>
    intro acc y
    rw [List.foldl_cons, ih (insertByKeyDesc key x acc) y,
      mem_insertByKeyDesc key x acc y]
    simp only [List.mem_cons]
    tauto

theorem mem_stableSortDesc (key : α → ℚ) (l : List α) (y : α) :
    y ∈ stableSortDesc key l ↔ y ∈ l := by
  rw [stableSortDesc, mem_foldl_insert]
  simp

theorem filter_insertByKeyDesc_ne (key : α → ℚ) (x : α) (l : List α) (c : ℚ)
    (hx : key x ≠ c) :
    (insertByKeyDesc key x l).filter (fun r => key r = c) =
      l.filter (fun r => key r = c) := by
  induction l with
  | nil => simp [insertByKeyDesc, hx]
  | cons z zs ih =>
    by_cases h : key x > key z
    · simp [insertByKeyDesc, if_pos h, List.filter_cons, hx]
    · rw [insertByKeyDesc, if_neg h]
      by_cases hz : key z = c <;> simp [List.filter_cons, hz, ih]

theorem filter_eq_nil_of_head_lt (key : α → ℚ) (z : α) (zs : List α) (c : ℚ)
    (h : (z :: zs).Pairwise (fun a b => key b ≤ key a)) (hz : key z < c) :
    (z :: zs).filter (fun r => key r = c) = [] := by
  rw [List.filter_eq_nil_iff]
  intro a ha
  rcases List.mem_cons.1 ha with rfl | ha
  · simp only [decide_eq_true_eq]
    exact ne_of_lt hz
  · simp only [decide_eq_true_eq]
    have := (List.pairwise_cons.1 h).1 a ha
    exact ne_of_lt (lt_of_le_of_lt this hz)

theorem filter_insertByKeyDesc_eq (key : α → ℚ) (x : α) (l : List α) (c : ℚ)
    (hl : l.Pairwise (fun a b => key b ≤ key a)) (hx : key x = c) :
    (insertByKeyDesc key x l).filter (fun r => key r = c) =
      l.filter (fun r => key r = c) ++ [x] := by
  induction l with
  | nil => simp [insertByKeyDesc, hx]
  | cons z zs ih =>
    by_cases h : key x > key z
    · have hz : key z < c := hx ▸ h
      rw [insertByKeyDesc, if_pos h, List.filter_cons,
        if_pos (by simpa using hx), filter_eq_nil_of_head_lt key z zs c hl hz]
      simp
    · rw [insertByKeyDesc, if_neg h]
      by_cases hz : key z = c <;>
        simp [List.filter_cons, hz, ih (List.pairwise_cons.1 hl).2]

theorem filter_foldl_insert (key : α → ℚ) (l : List α) (c : ℚ) :
    ∀ acc : List α, acc.Pairwise (fun a b => key b ≤ key a) →
      (l.foldl (fun acc x => insertByKeyDesc key x acc) acc).filter
          (fun r => key r = c) =
        acc.filter (fun r => key r = c) ++ l.filter (fun r => key r = c) := by
  induction l with
  | nil => intro acc _; simp
  | cons x xs ih =>
    intro acc hacc
    rw [List.foldl_cons,
      ih (insertByKeyDesc key x acc) (pairwise_insertByKeyDesc key x acc hacc)]
    by_cases hx : key x = c
    · rw [filter_insertByKeyDesc_eq key x acc c hacc hx, List.filter_cons,
        if_pos (by simpa using hx)]
      simp
    · rw [filter_insertByKeyDesc_ne key x acc c hx, List.filter_cons,
        if_neg (by simpa using hx)]

/-- Stability of the model of Python's sort: elements sharing one key value
keep their original relative order. -/
theorem filter_stableSortDesc (key : α → ℚ) (l : List α) (c : ℚ) :
    (stableSortDesc key l).filter (fun r => key r = c) =
      l.filter (fun r => key r = c) := by
  rw [stableSortDesc, filter_foldl_insert key l c [] List.Pairwise.nil]
  simp

theorem isPrefixOf_append_self (l t : List Char) : l.isPrefixOf (l ++ t) = true := by
  induction l with
  | nil => simp [List.isPrefixOf]
  | cons c cs ih => simp [List.isPrefixOf, ih]

theorem containsSubL_append_self (needle pre : List Char) :
    containsSubL needle (pre ++ needle) = true := by
  induction pre with
  | nil =>
    cases needle with
    | nil => rfl
    | cons c cs =>
      rw [List.nil_append, containsSubL]
      have h : (c :: cs).isPrefixOf (c :: cs) = true := by
        have h2 := isPrefixOf_append_self (c :: cs) []
        rwa [List.append_nil] at h2
      simp [h]
  | cons p ps ih =>
    rw [List.cons_append, containsSubL, ih]
    simp

theorem strContains_append_self (pre e : String) :
    strContains (pre ++ e) e = true := by
  rw [strContains, String.data_append]
  exact containsSubL_append_self e.data pre.data

theorem strStarts_append (p s : String) : strStarts (p ++ s) p = true := by
  rw [strStarts, String.data_append]
  exact isPrefixOf_append_self p.data s.data

/-! ## The success-path strategy string is distinct from the labels -/

theorem qc_value_length (qc : QueryComplexity) : 6 ≤ qc.value.length := by
  cases qc <;> decide

/-- Any `<complexity>_query_with_<k>_incidents` string has at least 28
characters, more than any of the fixed strategy labels. -/
theorem mainStrategy_length (qc : QueryComplexity) (n : Nat) :
    28 ≤ (qc.value ++ "_query_with_" ++ toString n ++ "_incidents").length := by
  have h := qc_value_length qc
  have h2 : (String.length "_query_with_") = 12 := by decide
  have h3 : (String.length "_incidents") = 10 := by decide
  simp only [String.length_append, h2, h3]
  omega

theorem mainStrategy_ne (qc : QueryComplexity) (n : Nat) (s : String)
    (h : s.length < 28) :
    qc.value ++ "_query_with_" ++ toString n ++ "_incidents" ≠ s := by
  intro he
  have h28 := mainStrategy_length qc n
  rw [he] at h28
  omega

/-! ## Characterizing the grouping loop of `_fuse_scores` -/

theorem fst_update (r : TRes)
    (p : String × Group) :
    ((if p.1 = r.inc.id then (p.1, applyOne p.2 r) else p) : String × Group).1 = p.1 := by
  by_cases hp : p.1 = r.inc.id <;> simp [hp]

theorem lookupG_addResult_self (gs : List (String × Group)) (r : TRes) (id : String)
    (hid : r.inc.id = id) :
    lookupG (addResult gs r) id =
      some (applyOne ((lookupG gs id).getD (emptyGroup r.inc)) r) := by
  unfold addResult
  by_cases h : gs.any (fun p => p.1 = r.inc.id)
  · rw [if_pos h]
    unfold lookupG
    rw [List.find?_map]
    have hpred :
        ((fun p : String × Group => decide (p.1 = id)) ∘
          (fun p => if p.1 = r.inc.id then (p.1, applyOne p.2 r) else p)) =
          fun p : String × Group => decide (p.1 = id) := by
      funext p
      simp [Function.comp, fst_update]
    rw [hpred]
    cases hfind : gs.find? (fun p => p.1 = id) with
    | none =>
      exfalso
      rcases List.any_eq_true.1 h with ⟨p, hp, hpt⟩
      have := List.find?_eq_none.1 hfind p hp
      simp only [decide_eq_true_eq] at this hpt
      exact this (hid ▸ hpt)
    | some pr =>
      have hkey : pr.1 = id := by
        have := List.find?_some hfind
        simpa using this
      have hcond : pr.1 = r.inc.id := hkey.trans hid.symm
      simp [hcond]
  · rw [if_neg h]
    unfold lookupG
    rw [List.find?_append]
    have hnone : gs.find? (fun p => p.1 = id) = none := by
      rw [List.find?_eq_none]
      intro p hp hpt
      apply h
      rw [List.any_eq_true]
      refine ⟨p, hp, ?_⟩
      simp only [decide_eq_true_eq] at hpt ⊢
      exact hid ▸ hpt
    rw [hnone]
    simp [List.find?, hid]

theorem lookupG_addResult_other (gs : List (String × Group)) (r : TRes) (id : String)
    (hid : r.inc.id ≠ id) :
    lookupG (addResult gs r) id = lookupG gs id := by
  unfold addResult
  by_cases h : gs.any (fun p => p.1 = r.inc.id)
  · rw [if_pos h]
    unfold lookupG
    rw [List.find?_map]
    have hpred :
        ((fun p : String × Group => decide (p.1 = id)) ∘
          (fun p => if p.1 = r.inc.id then (p.1, applyOne p.2 r) else p)) =
          fun p : String × Group => decide (p.1 = id) := by
      funext p
      simp [Function.comp, fst_update]
    rw [hpred]
    cases hfind : gs.find? (fun p => p.1 = id) with
    | none => rfl
    | some pr =>
      have hkey : pr.1 = id := by
        have := List.find?_some hfind
        simpa using this
      have hne : ¬ pr.1 = r.inc.id := fun he => hid (he ▸ hkey)
      simp [hne]
  · rw [if_neg h]
    unfold lookupG
    rw [List.find?_append]
    have h2 : List.find? (fun p => p.1 = id) [(r.inc.id, applyOne (emptyGroup r.inc) r)] =
        none := by
      simp [List.find?, hid]
    rw [h2]
    cases gs.find? (fun p => p.1 = id) <;> rfl

theorem lookupG_foldl_of_some (id : String) (rs : List TRes) :
    ∀ (gs : List (String × Group)) (g : Group), lookupG gs id = some g →
      lookupG (rs.foldl addResult gs) id =
        some ((rs.filter (fun r => r.inc.id = id)).foldl applyOne g) := by
  induction rs with
  | nil => intro gs g hg; simpa using hg
  | cons r rs ih =>
    intro gs g hg
    rw [List.foldl_cons]
    by_cases hr : r.inc.id = id
    · have h1 := lookupG_addResult_self gs r id hr
      rw [hg, Option.getD_some] at h1
      rw [ih (addResult gs r) (applyOne g r) h1, List.filter_cons,
        if_pos (by simpa using hr), List.foldl_cons]
    · rw [ih (addResult gs r) g (by rw [lookupG_addResult_other gs r id hr]; exact hg),
        List.filter_cons, if_neg (by simpa using hr)]

theorem lookupG_foldl_of_none (id : String) (rs : List TRes) :
    ∀ gs : List (String × Group), lookupG gs id = none →
      lookupG (rs.foldl addResult gs) id =
        match rs.filter (fun r => r.inc.id = id) with
        | [] => none
        | r :: rest => some (rest.foldl applyOne (applyOne (emptyGroup r.inc) r)) := by
  induction rs with
  | nil => intro gs hg; simpa using hg
  | cons r rs ih =>
    intro gs hg
    rw [List.foldl_cons]
    by_cases hr : r.inc.id = id
    · have h1 := lookupG_addResult_self gs r id hr
      rw [hg] at h1
      rw [lookupG_foldl_of_some id rs (addResult gs r)
          (applyOne (emptyGroup r.inc) r) h1,
        List.filter_cons, if_pos (by simpa using hr)]
    · rw [ih (addResult gs r) (by rw [lookupG_addResult_other gs r id hr]; exact hg),
        List.filter_cons, if_neg (by simpa using hr)]

theorem lookupG_resultGroups (all : List TRes) (id : String) :
    lookupG (resultGroups all) id =
      match all.filter (fun r => r.inc.id = id) with
      | [] => none
      | r :: rest => some (rest.foldl applyOne (applyOne (emptyGroup r.inc) r)) :=
  lookupG_foldl_of_none id all [] rfl

theorem applyOne_metadata (g : Group) (r : TRes) :
    (applyOne g r).metadata = g.metadata := by
  unfold applyOne
  cases r.stype <;> rfl

theorem goodGroups_addResult (gs : List (String × Group)) (r : TRes)
    (h : GoodGroups gs) : GoodGroups (addResult gs r) := by
  unfold addResult
  by_cases hc : gs.any (fun p => p.1 = r.inc.id)
  · rw [if_pos hc]
    constructor
    · have hkeys :
          (gs.map (fun p => if p.1 = r.inc.id then (p.1, applyOne p.2 r) else p)).map
              (·.1) = gs.map (·.1) := by
        rw [List.map_map]
        exact List.map_congr_left (fun p _ => fst_update r p)
      rw [hkeys]
      exact h.1
    · intro p hp
      rcases List.mem_map.1 hp with ⟨q, hq, hqe⟩
      by_cases hq1 : q.1 = r.inc.id
      · rw [if_pos hq1] at hqe
        subst hqe
        simpa [applyOne_metadata] using h.2 q hq
      · rw [if_neg hq1] at hqe
        subst hqe
        exact h.2 q hq
  · rw [if_neg hc]
    constructor
    · rw [List.map_append, List.nodup_append]
      refine ⟨h.1, by simp, ?_⟩
      intro k hk hke
      simp only [List.map_cons, List.map_nil, List.mem_cons, List.not_mem_nil,
        or_false] at hke
      subst hke
      apply hc
      rw [List.any_eq_true]
      rcases List.mem_map.1 hk with ⟨q, hq, hqe⟩
      exact ⟨q, hq, by simp [hqe]⟩
    · intro p hp
      rcases List.mem_append.1 hp with hp | hp
      · exact h.2 p hp
      · simp only [List.mem_cons, List.not_mem_nil, or_false] at hp
        subst hp
        simp [applyOne_metadata, emptyGroup]

theorem goodGroups_foldl (rs : List TRes) :
    ∀ gs : List (String × Group), GoodGroups gs → GoodGroups (rs.foldl addResult gs) := by
  induction rs with
  | nil => intro gs h; exact h
  | cons r rs ih =>
    intro gs h
    rw [List.foldl_cons]
    exact ih (addResult gs r) (goodGroups_addResult gs r h)

theorem goodGroups_resultGroups (all : List TRes) : GoodGroups (resultGroups all) :=
  goodGroups_foldl all [] ⟨List.nodup_nil, by simp⟩

theorem lookupG_of_mem (gs : List (String × Group)) (h : GoodGroups gs)
    (p : String × Group) (hp : p ∈ gs) : lookupG gs p.1 = some p.2 := by
  induction gs with
  | nil => cases hp
  | cons q qs ih =>
    rcases List.mem_cons.1 hp with rfl | hp2
    · unfold lookupG
      simp [List.find?]
    · have hkeys := h.1
      rw [List.map_cons, List.nodup_cons] at hkeys
      have hne : ¬ q.1 = p.1 := by
        intro he
        exact hkeys.1 (he ▸ List.mem_map.2 ⟨p, hp2, rfl⟩)
      unfold lookupG
      rw [List.find?, show (decide (q.1 = p.1)) = false by simpa using hne]
      exact ih ⟨hkeys.2, fun x hx => h.2 x (List.mem_cons_of_mem q hx)⟩ hp2

/-- Under duplicate-free ids, the filtered occurrence list of an id in a
method's result set is the `find?` singleton. -/
theorem filter_of_nodup_ids (l : List (Incident × ℚ)) (id : String)
    (hnd : (l.map (fun p => p.1.id)).Nodup) :
    l.filter (fun p => p.1.id = id) = (l.find? (fun p => p.1.id = id)).toList := by
  induction l with
  | nil => rfl
  | cons x xs ih =>
    rw [List.map_cons, List.nodup_cons] at hnd
    by_cases hx : x.1.id = id
    · rw [List.filter_cons, if_pos (by simpa using hx), List.find?,
        show (decide (x.1.id = id)) = true by simpa using hx]
      have hxs : xs.filter (fun p => p.1.id = id) = [] := by
        rw [List.filter_eq_nil_iff]
        intro y hy hyt
        simp only [decide_eq_true_eq] at hyt
        exact hnd.1 (hx ▸ hyt ▸ List.mem_map.2 ⟨y, hy, rfl⟩)
      rw [hxs]
      rfl
    · rw [List.filter_cons, if_neg (by simpa using hx), List.find?,
        show (decide (x.1.id = id)) = false by simpa using hx]
      exact ih hnd.2

theorem normalize_scores_ids (l : List (Incident × ℚ)) :
    (normalize_scores l).map (fun p => p.1.id) = l.map (fun p => p.1.id) := by
  cases l with
  | nil => rfl
  | cons r rest =>
    unfold normalize_scores
    by_cases h : (rest.map (·.2)).foldl max r.2 = (rest.map (·.2)).foldl min r.2 <;>
      simp [h, List.map_map, Function.comp]

theorem tagWith_filter (st : SType) (l : List (Incident × ℚ)) (id : String) :
    (tagWith st l).filter (fun t => t.inc.id = id) =
      (l.filter (fun p => p.1.id = id)).map
        (fun p => ({ inc := p.1, norm := p.2, stype := st } : TRes)) := by
  unfold tagWith
  rw [List.filter_map]
  rfl

/-- The heart of C3: each group's per-method scores are exactly the
normalized scores the three methods reported for that id (0 when absent). -/
theorem group_scores_char (semN bmN tfN : List (Incident × ℚ)) (id : String)
    (g : Group)
    (hs : (semN.map (fun p => p.1.id)).Nodup)
    (hb : (bmN.map (fun p => p.1.id)).Nodup)
    (ht : (tfN.map (fun p => p.1.id)).Nodup)
    (hg : lookupG (resultGroups
        (tagWith .semantic semN ++ tagWith .bm25 bmN ++ tagWith .tfidf tfN)) id
      = some g) :
    g.semantic_score = methodScore semN id ∧ g.bm25_score = methodScore bmN id ∧
      g.tfidf_score = methodScore tfN id := by
  rw [lookupG_resultGroups, List.filter_append, List.filter_append,
    tagWith_filter, tagWith_filter, tagWith_filter,
    filter_of_nodup_ids semN id hs, filter_of_nodup_ids bmN id hb,
    filter_of_nodup_ids tfN id ht] at hg
  rcases hsf : semN.find? (fun p => p.1.id = id) with _ | x <;>
    rcases hbf : bmN.find? (fun p => p.1.id = id) with _ | y <;>
      rcases htf : tfN.find? (fun p => p.1.id = id) with _ | z <;>
        rw [hsf, hbf, htf] at hg <;>
          simp only [Option.toList_none, Option.toList_some, List.map_nil,
            List.map_cons, List.nil_append, List.append_nil, List.cons_append,
            List.foldl_cons, List.foldl_nil, Option.some.injEq] at hg
  · cases hg
  all_goals {
    subst hg
    simp [applyOne, emptyGroup, methodScore, hsf, hbf, htf]
  }

/-! ## Branch equations for the orchestrator -/

theorem process_rag_query_exact (env : Env) (q tid : String)
    (h : extract_exact_ticket_id q = some tid) :
    process_rag_query env q = process_exact_ticket_query env q tid := by
  unfold process_rag_query
  rw [h]

theorem process_rag_query_errmain (env : Env) (q e : String)
    (h : extract_exact_ticket_id q = none) (hm : env.excMain = some e) :
    process_rag_query env q =
      { query := q
        generated_answer := "RAG pipeline error: " ++ e
        retrieved_incidents := []
        sources := []
        confidence_score := 0
        query_complexity := .UNKNOWN
        rag_strategy := "error_fallback" } := by
  unfold process_rag_query
  rw [h, hm]

theorem process_rag_query_main (env : Env) (q : String)
    (h : extract_exact_ticket_id q = none) (hm : env.excMain = none) :
    process_rag_query env q = mainPipeline env q := by
  unfold process_rag_query
  rw [h, hm]

theorem process_exact_exc (env : Env) (q tid e : String)
    (hm : env.excExact = some e) :
    process_exact_ticket_query env q tid =
      { query := q
        generated_answer :=
          "❌ **Error fetching ticket " ++ tid ++
            "**\n\nAn error occurred while looking up the exact ticket: " ++ e
        retrieved_incidents := []
        sources := []
        confidence_score := 0
        query_complexity := .UNKNOWN
        rag_strategy := "exact_id_error" } := by
  unfold process_exact_ticket_query
  rw [hm]

theorem process_exact_not_found (env : Env) (q tid : String)
    (hm : env.excExact = none) (hf : fetch_exact_ticket_by_id env tid = none) :
    process_exact_ticket_query env q tid =
      { query := q
        generated_answer := notFoundMessage tid
        retrieved_incidents := []
        sources := []
        confidence_score := 1
        query_complexity := .SIMPLE
        rag_strategy := "exact_id_not_found" } := by
  unfold process_exact_ticket_query
  rw [hm, hf]

theorem process_exact_found (env : Env) (q tid : String) (inc : Incident)
    (hm : env.excExact = none) (hf : fetch_exact_ticket_by_id env tid = some inc) :
    process_exact_ticket_query env q tid =
      { query := q
        generated_answer := exactAnswer inc (generate_exact_ticket_summary env inc)
        retrieved_incidents :=
          [{ inc := inc, ai_suggestion := generate_exact_ticket_summary env inc,
             score := 1, fused_score := 1, match_type := .EXACT_ID }]
        sources := ["[EXACT] " ++ inc.id ++ " - " ++ takeStr 60 inc.title]
        confidence_score := 1
        query_complexity := .SIMPLE
        rag_strategy := "exact_id_lookup" } := by
  unfold process_exact_ticket_query
  rw [hm, hf]

theorem mainPipeline_no_results (env : Env) (q : String)
    (h : (mainCandidates env q (classify_query_complexity env)).isEmpty ∨
      ¬ (validate_semantic_relevance q
          (mainCandidates env q (classify_query_complexity env))).1) :
    mainPipeline env q =
      { query := q
        generated_answer := generate_no_results_response q
        retrieved_incidents := []
        sources := []
        confidence_score := 0
        query_complexity := classify_query_complexity env
        rag_strategy := "no_relevant_results" } := by
  simp only [mainPipeline]
  rw [if_pos h]

theorem mainPipeline_low_conf (env : Env) (q : String)
    (h : ¬ ((mainCandidates env q (classify_query_complexity env)).isEmpty ∨
      ¬ (validate_semantic_relevance q
          (mainCandidates env q (classify_query_complexity env))).1))
    (hc : calculate_confidence_score (mainCandidates env q (classify_query_complexity env))
        (classify_query_complexity env) < 0.4) :
    mainPipeline env q =
      { query := q
        generated_answer := generate_no_results_response q
        retrieved_incidents := []
        sources := []
        confidence_score :=
          calculate_confidence_score (mainCandidates env q (classify_query_complexity env))
            (classify_query_complexity env)
        query_complexity := classify_query_complexity env
        rag_strategy := "low_confidence_rejected" } := by
  simp only [mainPipeline]
  rw [if_neg h, if_pos hc]

theorem mainPipeline_success (env : Env) (q : String)
    (h : ¬ ((mainCandidates env q (classify_query_complexity env)).isEmpty ∨
      ¬ (validate_semantic_relevance q
          (mainCandidates env q (classify_query_complexity env))).1))
    (hc : ¬ calculate_confidence_score
        (mainCandidates env q (classify_query_complexity env))
        (classify_query_complexity env) < 0.4) :
    mainPipeline env q =
      { query := q
        generated_answer :=
          generate_rag_response env (mainCandidates env q (classify_query_complexity env))
        retrieved_incidents := mainCandidates env q (classify_query_complexity env)
        sources := extract_sources (mainCandidates env q (classify_query_complexity env))
        confidence_score :=
          calculate_confidence_score (mainCandidates env q (classify_query_complexity env))
            (classify_query_complexity env)
        query_complexity := classify_query_complexity env
        rag_strategy :=
          (classify_query_complexity env).value ++ "_query_with_" ++
            toString (mainCandidates env q (classify_query_complexity env)).length ++
            "_incidents" } := by
  simp only [mainPipeline]
  rw [if_neg h, if_neg hc]

/-! ## Support lemmas for the hybrid-search claims -/

theorem hybrid_search_eq (env : Env) (q : String) (k : Nat) (m : ℚ) :
    hybrid_search env q k m =
      if (allResults env).isEmpty then []
      else ((fuse_scores (allResults env) q).filter (fun r => r.fused_score ≥ m)).take k :=
  rfl

theorem mem_hybrid_search (env : Env) (q : String) (k : Nat) (m : ℚ) (r : RRec)
    (hr : r ∈ hybrid_search env q k m) :
    r ∈ fuse_scores (allResults env) q ∧ m ≤ r.fused_score := by
  rw [hybrid_search_eq] at hr
  by_cases h : (allResults env).isEmpty
  · rw [if_pos h] at hr
    cases hr
  · rw [if_neg h] at hr
    have h1 : r ∈ (fuse_scores (allResults env) q).filter (fun x => x.fused_score ≥ m) :=
      List.mem_of_mem_take hr
    have h2 := List.mem_filter.1 h1
    exact ⟨h2.1, by simpa using h2.2⟩

theorem mem_fuse_scores (all : List TRes) (q : String) (r : RRec)
    (hr : r ∈ fuse_scores all q) :
    ∃ p ∈ resultGroups all, r = fuseGroup q p.2 := by
  rw [fuse_scores, mem_stableSortDesc] at hr
  rcases List.mem_map.1 hr with ⟨p, hp, he⟩
  exact ⟨p, hp, he.symm⟩

theorem pairwise_hybrid_search (env : Env) (q : String) (k : Nat) (m : ℚ) :
    (hybrid_search env q k m).Pairwise (fun a b => b.fused_score ≤ a.fused_score) := by
  rw [hybrid_search_eq]
  by_cases h : (allResults env).isEmpty
  · rw [if_pos h]
    exact List.Pairwise.nil
  · rw [if_neg h]
    have h1 : (fuse_scores (allResults env) q).Pairwise
        (fun a b => b.fused_score ≤ a.fused_score) := pairwise_stableSortDesc _ _
    exact h1.sublist ((List.take_sublist _ _).trans (List.filter_sublist _))

theorem priority_fst_nonpos (q : String) (inc : Incident) (base : ℚ)
    (h : base ≤ 0) : (calculate_priority_score q inc base).1 ≤ 0 := by
  unfold calculate_priority_score
  dsimp only
  split_ifs with h1 h2 h3
  · exact le_trans (min_le_left _ _) (by linarith)
  · exact le_trans (min_le_left _ _) (by linarith)
  · exact le_trans (min_le_left _ _) (by linarith)
  · exact h

theorem applyBoosts_nonpos (q : String) (inc : Incident) (mc : Nat) (base : ℚ)
    (h : base ≤ 0) : applyBoosts q inc mc base ≤ 0 := by
  unfold applyBoosts
  dsimp only
  have h1 := priority_fst_nonpos q inc base h
  refine le_trans (min_le_left _ _) ?_
  split_ifs with hm hd hd
  · have hmc : (2 : ℚ) ≤ (mc : ℚ) := by exact_mod_cast hm
    refine mul_nonpos_of_nonpos_of_nonneg ?_ (by linarith)
    exact le_trans (min_le_left _ _) (by linarith)
  · have hmc : (2 : ℚ) ≤ (mc : ℚ) := by exact_mod_cast hm
    exact mul_nonpos_of_nonpos_of_nonneg h1 (by linarith)
  · exact le_trans (min_le_left _ _) (by linarith)
  · exact h1

/-! ## Support lemmas for the relevance gate -/

theorem bestStep_fst (ql : String) (st : ℚ × String) (inc : RRec) :
    (bestStep ql st inc).1 = max st.1 (compositeScore ql inc.inc) := by
  unfold bestStep
  dsimp only
  by_cases h : compositeScore ql inc.inc > st.1
  · rw [if_pos h]
    exact (max_eq_right (le_of_lt h)).symm
  · rw [if_neg h]
    exact (max_eq_left (le_of_not_lt h)).symm

theorem bestLoop_fst (ql : String) (incs : List RRec) :
    ∀ st : ℚ × String,
      (incs.foldl (bestStep ql) st).1 =
        (incs.map (fun r => compositeScore ql r.inc)).foldl max st.1 := by
  induction incs with
  | nil => intro st; rfl
  | cons r t ih =>
    intro st
    rw [List.foldl_cons, ih (bestStep ql st r), List.map_cons, List.foldl_cons,
      bestStep_fst]

theorem bestLoop_inv (ql : String) (incs : List RRec) :
    ∀ st : ℚ × String,
      (0.2 ≤ st.1 →
        st.2 = (if st.1 ≥ 0.6 then "high_semantic_relevance"
          else if st.1 ≥ 0.4 then "moderate_semantic_relevance"
          else "weak_semantic_relevance")) →
      (0.2 ≤ (incs.foldl (bestStep ql) st).1 →
        (incs.foldl (bestStep ql) st).2 =
          (if (incs.foldl (bestStep ql) st).1 ≥ 0.6 then "high_semantic_relevance"
           else if (incs.foldl (bestStep ql) st).1 ≥ 0.4 then "moderate_semantic_relevance"
           else "weak_semantic_relevance")) := by
  induction incs with
  | nil => intro st h; exact h
  | cons r t ih =>
    intro st h
    rw [List.foldl_cons]
    refine ih (bestStep ql st r) ?_
    unfold bestStep
    dsimp only
    by_cases hgt : compositeScore ql r.inc > st.1
    · rw [if_pos hgt]
      dsimp only
      intro hc
      by_cases h6 : compositeScore ql r.inc ≥ 0.6
      · rw [if_pos h6, if_pos h6]
      · rw [if_neg h6, if_neg h6]
        by_cases h4 : compositeScore ql r.inc ≥ 0.4
        · rw [if_pos h4, if_pos h4]
        · rw [if_neg h4, if_neg h4, if_pos hc]
    · rw [if_neg hgt]
      exact h

theorem bestMatchLoop_reason (ql : String) (incs : List RRec)
    (h : 0.2 ≤ (bestMatchLoop ql incs).1) :
    (bestMatchLoop ql incs).2 =
      (if (bestMatchLoop ql incs).1 ≥ 0.6 then "high_semantic_relevance"
       else if (bestMatchLoop ql incs).1 ≥ 0.4 then "moderate_semantic_relevance"
       else "weak_semantic_relevance") := by
  have := bestLoop_inv ql incs (0, "no_semantic_overlap")
    (fun hc => absurd hc (by norm_num))
  exact this h

/-! ## Support lemmas for the API layer -/

theorem extract_of_strip_nil (q : String) (h : stripL q.data = []) :
    extract_exact_ticket_id q = none := by
  unfold extract_exact_ticket_id
  rw [h]
  decide

theorem strStarts_trans_append (x t p : String) (h : strStarts x p = true) :
    strStarts (x ++ t) p = true := by
  rw [strStarts, String.data_append]
  rw [strStarts] at h
  rw [List.isPrefixOf_iff_prefix] at h ⊢
  exact h.trans (List.prefix_append x.data t.data)

/-- Every response of the service whose strategy is one of the reject
labels carries empty incidents and sources. -/
theorem service_reject_empty (env : Env) (q : String)
    (hs : (process_rag_query env q).rag_strategy ∈
      (["exact_id_not_found", "domain_filter", "no_relevant_results",
        "low_confidence_rejected", "error_fallback"] : List String)) :
    (process_rag_query env q).retrieved_incidents = [] ∧
      (process_rag_query env q).sources = [] := by
  cases hq : extract_exact_ticket_id q with
  | some tid =>
    rw [process_rag_query_exact env q tid hq] at hs ⊢
    cases hm : env.excExact with
    | some e =>
      rw [process_exact_exc env q tid e hm]
      exact ⟨rfl, rfl⟩
    | none =>
      cases hf : fetch_exact_ticket_by_id env tid with
      | none =>
        rw [process_exact_not_found env q tid hm hf]
        exact ⟨rfl, rfl⟩
      | some inc =>
        rw [process_exact_found env q tid inc hm hf] at hs
        dsimp only at hs
        exact absurd hs (by decide)
  | none =>
    cases hm : env.excMain with
    | some e =>
      rw [process_rag_query_errmain env q e hq hm]
      exact ⟨rfl, rfl⟩
    | none =>
      rw [process_rag_query_main env q hq hm] at hs ⊢
      by_cases h1 : (mainCandidates env q (classify_query_complexity env)).isEmpty ∨
          ¬ (validate_semantic_relevance q
              (mainCandidates env q (classify_query_complexity env))).1
      · rw [mainPipeline_no_results env q h1]
        exact ⟨rfl, rfl⟩
      · by_cases h2 : calculate_confidence_score
            (mainCandidates env q (classify_query_complexity env))
            (classify_query_complexity env) < 0.4
        · rw [mainPipeline_low_conf env q h1 h2]
          exact ⟨rfl, rfl⟩
        · rw [mainPipeline_success env q h1 h2] at hs
          exfalso
          simp only [List.mem_cons, List.not_mem_nil, or_false] at hs
          rcases hs with h | h | h | h | h <;>
            exact mainStrategy_ne _ _ _ (by decide) h

/-! ## Claim C1: the exact-ID bypass -/

/-- C1: a query carrying a recognized incident-id pattern takes the
exact-id branch; when the corpus holds that id (stored canonically
upper-case, as the data model requires), the response has strategy
`exact_id_lookup`, exactly the one incident with the extracted upper-cased
id, and confidence 1. -/
theorem C1_exact_id_bypass (env : Env) (q tid : String) (inc : Incident)
    (h1 : extract_exact_ticket_id q = some tid)
    (h2 : env.excExact = none)
    (h3 : fetch_exact_ticket_by_id env tid = some inc)
    (h4 : inc.id = tid) :
    (process_rag_query env q).rag_strategy = "exact_id_lookup" ∧
    (process_rag_query env q).retrieved_incidents.map (fun r => r.inc.id) = [tid] ∧
    (process_rag_query env q).confidence_score = 1 := by
  rw [process_rag_query_exact env q tid h1, process_exact_found env q tid inc h2 h3]
  exact ⟨rfl, by simp [h4], rfl⟩

/-- Witness for C1: a prose query around JSP-1046 against a corpus holding
that incident. -/
theorem C1_exact_id_bypass_witness :
    extract_exact_ticket_id "please fix JSP-1046 asap" = some "JSP-1046" ∧
    envJsp.excExact = none ∧
    fetch_exact_ticket_by_id envJsp "JSP-1046" = some jsp1046 ∧
    jsp1046.id = "JSP-1046" ∧
    ((process_rag_query envJsp "please fix JSP-1046 asap").rag_strategy =
        "exact_id_lookup" ∧
      (process_rag_query envJsp "please fix JSP-1046 asap").retrieved_incidents.map
          (fun r => r.inc.id) = ["JSP-1046"] ∧
      (process_rag_query envJsp "please fix JSP-1046 asap").confidence_score = 1) :=
  ⟨by decide, rfl, by decide, rfl,
    C1_exact_id_bypass envJsp "please fix JSP-1046 asap" "JSP-1046" jsp1046
      (by decide) rfl (by decide) rfl⟩

/-! ## Claim C2 (corrected): the payment-domain gate -/

unseal Rat.ofScientific Rat.mul Rat.inv Rat.add Rat.sub in
/-- Counterexample to C2 as stated: `"transaction"` contains no term of the
claim's vocabulary and no incident id, yet the system does not emit
`domain_filter` (the code's keyword list also contains `transaction`,
`failure`, `processing`, `authorization`, `authentication`, and no
`irctc`). -/
theorem C2_counterexample :
    extract_exact_ticket_id "transaction" = none ∧
    claimPaymentVocab.all (fun k => !(strContains (lowerStr "transaction") k)) =
      true ∧
    apiStrategy (api_process_rag_query baseEnv "transaction" true) =
      some "no_relevant_results" ∧
    "no_relevant_results" ≠ "domain_filter" :=
  ⟨by decide, by decide, by decide, by decide⟩

/-- C2 amended: with the code's keyword list (substring match on the
lower-cased query), a non-empty query carrying no id and no keyword is
answered `domain_filter` with confidence 1 and no incidents; and a query
carrying an incident id is never answered `domain_filter`. -/
theorem C2_domain_gate_amended :
    (∀ (env : Env) (q : String) (b : Bool),
       (stripL q.data).isEmpty = false →
       extract_exact_ticket_id q = none →
       (∀ k ∈ payment_keywords, strContains (lowerStr q) k = false) →
       api_process_rag_query env q b = .ok (domainFilterResult q) ∧
       (domainFilterResult q).rag_strategy = "domain_filter" ∧
       (domainFilterResult q).confidence_score = 1 ∧
       (domainFilterResult q).retrieved_incidents = []) ∧
    (∀ (env : Env) (q tid : String) (b : Bool) (r : RAGResult),
       extract_exact_ticket_id q = some tid →
       api_process_rag_query env q b = .ok r →
       r.rag_strategy ≠ "domain_filter") := by
  constructor
  · intro env q b he hid hkw
    have hpd : is_payment_domain_query q = false := by
      unfold is_payment_domain_query
      rw [if_neg (by simp [is_incident_id, hid])]
      rw [List.any_eq_false]
      intro k hk
      simp [hkw k hk]
    unfold api_process_rag_query
    rw [if_neg (by simp [he]), if_pos (by simp [hpd])]
    exact ⟨rfl, rfl, rfl, rfl⟩
  · intro env q tid b r hid hr
    have hne : (stripL q.data).isEmpty = false := by
      by_cases hb : (stripL q.data).isEmpty
      · exfalso
        have h0 : stripL q.data = [] := by simpa [List.isEmpty_iff] using hb
        rw [extract_of_strip_nil q h0] at hid
        cases hid
      · simpa using hb
    have hpd : is_payment_domain_query q = true := by
      unfold is_payment_domain_query
      rw [if_pos (by simp [is_incident_id, hid])]
    unfold api_process_rag_query at hr
    rw [if_neg (by simp [hne]), if_neg (by simp [hpd])] at hr
    have hrr := Except.ok.inj hr
    subst hrr
    dsimp only
    rw [process_rag_query_exact env q tid hid]
    cases hm : env.excExact with
    | some e =>
      rw [process_exact_exc env q tid e hm]
      dsimp only
      decide
    | none =>
      cases hf : fetch_exact_ticket_by_id env tid with
      | none =>
        rw [process_exact_not_found env q tid hm hf]
        dsimp only
        decide
      | some inc =>
        rw [process_exact_found env q tid inc hm hf]
        dsimp only
        decide

/-- Witness for the amended C2: the spec's own out-of-domain example is
domain-filtered, and an id-bearing query is not. -/
theorem C2_domain_gate_amended_witness :
    ((stripL ("how to deploy a microservice" : String).data).isEmpty = false ∧
      extract_exact_ticket_id "how to deploy a microservice" = none ∧
      api_process_rag_query baseEnv "how to deploy a microservice" true =
        .ok (domainFilterResult "how to deploy a microservice")) ∧
    (extract_exact_ticket_id "JSP-9999" = some "JSP-9999" ∧
      api_process_rag_query baseEnv "JSP-9999" true = .ok jspMissReply ∧
      jspMissReply.rag_strategy ≠ "domain_filter") :=
  ⟨⟨by decide, by decide,
      (C2_domain_gate_amended.1 baseEnv "how to deploy a microservice" true
        (by decide) (by decide) (by decide)).1⟩,
    ⟨by decide, rfl,
      C2_domain_gate_amended.2 baseEnv "JSP-9999" "JSP-9999" true jspMissReply
        (by decide) rfl⟩⟩

/-! ## Claim C4 (corrected): the relevance gate -/

unseal Rat.ofScientific Rat.mul Rat.inv Rat.add Rat.sub in
/-- Counterexample to C4 as stated: a candidate whose composite is 0.31
(inside the claim's `moderate` band `[0.3, 0.6)`) is trusted with reason
`weak_semantic_relevance`, not `moderate_semantic_relevance`. -/
theorem C4_counterexample :
    (bestMatchLoop (lowerStr "wallet failed") [gatewayRec]).1 = 31 / 100 ∧
    maxHybridScore [gatewayRec] = 3 / 5 ∧
    validate_semantic_relevance "wallet failed" [gatewayRec] =
      (true, "weak_semantic_relevance") ∧
    "weak_semantic_relevance" ≠ "moderate_semantic_relevance" :=
  ⟨by decide, by decide, by decide, by decide⟩

/-- C4 amended: the gate refines the decision table `gateSpec` — the
hybrid override at 0.8, `high` at composite 0.6, `moderate` only at 0.4,
`weak` on `[0.3, 0.4)`, the hybrid rescue at (0.5, 0.1), rejection
otherwise, and rejection of an empty candidate list; the loop value is the
maximum composite. -/
theorem C4_relevance_gate_amended (q : String) (incs : List RRec)
    (hne : incs ≠ []) :
    validate_semantic_relevance q incs =
      gateSpec (maxHybridScore incs) ((bestMatchLoop (lowerStr q) incs).1) ∧
    validate_semantic_relevance q [] = (false, "no_incidents_retrieved") ∧
    (bestMatchLoop (lowerStr q) incs).1 =
      (incs.map (fun r => compositeScore (lowerStr q) r.inc)).foldl max 0 := by
  refine ⟨?_, rfl, bestLoop_fst (lowerStr q) incs (0, "no_semantic_overlap")⟩
  unfold validate_semantic_relevance gateSpec
  rw [if_neg (show ¬ (incs.isEmpty = true) by simpa [List.isEmpty_iff] using hne)]
  dsimp only
  by_cases hM : maxHybridScore incs ≥ 0.8
  · rw [if_pos hM, if_pos hM]
  · rw [if_neg hM, if_neg hM]
    by_cases h6 : (bestMatchLoop (lowerStr q) incs).1 ≥ 0.6
    · rw [if_pos h6, if_pos h6,
        bestMatchLoop_reason (lowerStr q) incs (by linarith), if_pos h6]
    · rw [if_neg h6, if_neg h6]
      by_cases h4 : (bestMatchLoop (lowerStr q) incs).1 ≥ 0.4
      · rw [if_pos (show (bestMatchLoop (lowerStr q) incs).1 ≥ 0.3 by linarith),
          bestMatchLoop_reason (lowerStr q) incs (by linarith), if_neg h6,
          if_pos h4, if_pos h4]
      · rw [if_neg h4]
        by_cases h3 : (bestMatchLoop (lowerStr q) incs).1 ≥ 0.3
        · rw [if_pos h3,
            bestMatchLoop_reason (lowerStr q) incs (by linarith), if_neg h6,
            if_neg h4, if_pos h3]
        · rw [if_neg h3, if_neg h3]

unseal Rat.ofScientific Rat.mul Rat.inv Rat.add Rat.sub in
/-- Witness for the amended C4 on a concrete candidate list. -/
theorem C4_relevance_gate_amended_witness :
    ([gatewayRec] ≠ ([] : List RRec)) ∧
    (validate_semantic_relevance "wallet failed" [gatewayRec] =
        gateSpec (maxHybridScore [gatewayRec])
          ((bestMatchLoop (lowerStr "wallet failed") [gatewayRec]).1) ∧
      validate_semantic_relevance "wallet failed" [] =
        (false, "no_incidents_retrieved") ∧
      (bestMatchLoop (lowerStr "wallet failed") [gatewayRec]).1 =
        ([gatewayRec].map
          (fun r => compositeScore (lowerStr "wallet failed") r.inc)).foldl max 0) :=
  ⟨by decide, C4_relevance_gate_amended "wallet failed" [gatewayRec] (by decide)⟩

/-! ## Claim C5: the confidence floor -/

/-- C5: once the gate trusts a non-empty candidate list, the orchestrator
emits `low_confidence_rejected` exactly when the confidence scorer's value
is below 0.4; the scorer maps an empty candidate list to 0. -/
theorem C5_confidence_floor (env : Env) (q : String)
    (h1 : extract_exact_ticket_id q = none) (h2 : env.excMain = none)
    (h3 : (mainCandidates env q (classify_query_complexity env)).isEmpty = false)
    (h4 : (validate_semantic_relevance q
        (mainCandidates env q (classify_query_complexity env))).1 = true) :
    ((process_rag_query env q).rag_strategy = "low_confidence_rejected" ↔
      calculate_confidence_score (mainCandidates env q (classify_query_complexity env))
        (classify_query_complexity env) < 0.4) ∧
    (∀ qc : QueryComplexity, calculate_confidence_score [] qc = 0) := by
  refine ⟨?_, fun qc => rfl⟩
  rw [process_rag_query_main env q h1 h2]
  have hcond : ¬ ((mainCandidates env q (classify_query_complexity env)).isEmpty ∨
      ¬ (validate_semantic_relevance q
          (mainCandidates env q (classify_query_complexity env))).1) := by
    simp [h3, h4]
  by_cases hc : calculate_confidence_score
      (mainCandidates env q (classify_query_complexity env))
      (classify_query_complexity env) < 0.4
  · rw [mainPipeline_low_conf env q hcond hc]
    exact iff_of_true rfl hc
  · rw [mainPipeline_success env q hcond hc]
    dsimp only
    exact iff_of_false (mainStrategy_ne _ _ _ (by decide)) hc

unseal Rat.ofScientific Rat.mul Rat.inv Rat.add Rat.sub in
/-- Witness for C5: a trusted wallet query whose scorer value 0.864 clears
the floor, so the strategy is the success form. -/
theorem C5_confidence_floor_witness :
    extract_exact_ticket_id "wallet failed" = none ∧
    envWallet.excMain = none ∧
    (mainCandidates envWallet "wallet failed"
      (classify_query_complexity envWallet)).isEmpty = false ∧
    (validate_semantic_relevance "wallet failed"
      (mainCandidates envWallet "wallet failed"
        (classify_query_complexity envWallet))).1 = true ∧
    (((process_rag_query envWallet "wallet failed").rag_strategy =
          "low_confidence_rejected" ↔
        calculate_confidence_score
          (mainCandidates envWallet "wallet failed"
            (classify_query_complexity envWallet))
          (classify_query_complexity envWallet) < 0.4) ∧
      (∀ qc : QueryComplexity, calculate_confidence_score [] qc = 0)) :=
  ⟨by decide, rfl, by decide, by decide,
    C5_confidence_floor envWallet "wallet failed" (by decide) rfl (by decide)
      (by decide)⟩

/-! ## Claim C8 (corrected): source citations align with incidents -/

/-- Counterexample to C8 as stated: on the exact-id path the single source
line begins `"[EXACT] <id> - "`, not `"[<id>] "`. -/
theorem C8_counterexample :
    (process_rag_query envJsp "JSP-1046").sources =
      ["[EXACT] JSP-1046 - Webhook signature mismatch on callback"] ∧
    (process_rag_query envJsp "JSP-1046").retrieved_incidents.map
      (fun r => r.inc.id) = ["JSP-1046"] ∧
    strStarts "[EXACT] JSP-1046 - Webhook signature mismatch on callback"
      "[JSP-1046] " = false := by
  refine ⟨?_, ?_, by decide⟩ <;>
    rw [process_rag_query_exact envJsp "JSP-1046" "JSP-1046" (by decide),
      process_exact_found envJsp "JSP-1046" "JSP-1046" jsp1046 rfl (by decide)] <;>
      decide

/-- C8 amended: whenever sources are non-empty, they parallel the retrieved
incidents one-to-one and in order; on the exact-id path the single source
begins `"[EXACT] <id> - "`, on every other path the i-th source begins
`"[<id>] "` for the i-th incident's id. -/
theorem C8_sources_alignment_amended (env : Env) (q : String)
    (hne : (process_rag_query env q).sources ≠ []) :
    (process_rag_query env q).sources.length =
      (process_rag_query env q).retrieved_incidents.length ∧
    ∀ i : Nat, i < (process_rag_query env q).sources.length →
      strStarts ((process_rag_query env q).sources.getD i "")
        (srcTag (process_rag_query env q).rag_strategy
          (((process_rag_query env q).retrieved_incidents.getD i dummyRec).inc.id)) =
        true := by
  cases hq : extract_exact_ticket_id q with
  | some tid =>
    rw [process_rag_query_exact env q tid hq] at hne ⊢
    cases hm : env.excExact with
    | some e =>
      rw [process_exact_exc env q tid e hm] at hne
      exact absurd rfl hne
    | none =>
      cases hf : fetch_exact_ticket_by_id env tid with
      | none =>
        rw [process_exact_not_found env q tid hm hf] at hne
        exact absurd rfl hne
      | some inc =>
        rw [process_exact_found env q tid inc hm hf]
        refine ⟨rfl, ?_⟩
        intro i hi
        have hi1 : i < 1 := hi
        have hi0 : i = 0 := Nat.lt_one_iff.1 hi1
        subst hi0
        show strStarts ("[EXACT] " ++ inc.id ++ " - " ++ takeStr 60 inc.title)
          (srcTag "exact_id_lookup" inc.id) = true
        rw [srcTag, if_pos rfl]
        exact strStarts_append ("[EXACT] " ++ inc.id ++ " - ") (takeStr 60 inc.title)
  | none =>
    cases hm : env.excMain with
    | some e =>
      rw [process_rag_query_errmain env q e hq hm] at hne
      exact absurd rfl hne
    | none =>
      rw [process_rag_query_main env q hq hm] at hne ⊢
      by_cases h1 : (mainCandidates env q (classify_query_complexity env)).isEmpty ∨
          ¬ (validate_semantic_relevance q
              (mainCandidates env q (classify_query_complexity env))).1
      · rw [mainPipeline_no_results env q h1] at hne
        exact absurd rfl hne
      · by_cases h2 : calculate_confidence_score
            (mainCandidates env q (classify_query_complexity env))
            (classify_query_complexity env) < 0.4
        · rw [mainPipeline_low_conf env q h1 h2] at hne
          exact absurd rfl hne
        · rw [mainPipeline_success env q h1 h2]
          dsimp only
          constructor
          · exact List.length_map _ _
          · intro i hi
            have hil : i < (mainCandidates env q (classify_query_complexity env)).length := by
              simpa [extract_sources] using hi
            have hsrc : i < (extract_sources
                (mainCandidates env q (classify_query_complexity env))).length := hi
            rw [List.getD_eq_getElem _ _ hsrc, List.getD_eq_getElem _ _ hil]
            simp only [extract_sources, List.getElem_map]
            rw [srcTag, if_neg (mainStrategy_ne _ _ _ (by decide))]
            refine strStarts_trans_append _ _ _ ?_
            refine strStarts_trans_append _ _ _ ?_
            refine strStarts_trans_append _ _ _ ?_
            refine strStarts_trans_append _ _ _ ?_
            exact strStarts_append _ _

/-- Witness for the amended C8 on the exact-id path, with the index
instantiated at 0. -/
theorem C8_sources_alignment_amended_witness :
    (process_rag_query envJsp "JSP-1046").sources ≠ [] ∧
    (process_rag_query envJsp "JSP-1046").sources.length =
      (process_rag_query envJsp "JSP-1046").retrieved_incidents.length ∧
    strStarts ((process_rag_query envJsp "JSP-1046").sources.getD 0 "")
      (srcTag (process_rag_query envJsp "JSP-1046").rag_strategy
        (((process_rag_query envJsp "JSP-1046").retrieved_incidents.getD 0
          dummyRec).inc.id)) = true :=
  ⟨by decide,
    (C8_sources_alignment_amended envJsp "JSP-1046" (by decide)).1,
    (C8_sources_alignment_amended envJsp "JSP-1046" (by decide)).2 0 (by decide)⟩

/-! ## Claim C6 (corrected): the exception boundary -/

/-- Counterexample to C6 as stated: an unexpected exception inside the
exact-id branch is caught by that branch's own handler and labelled
`exact_id_error`, not `error_fallback`. -/
theorem C6_counterexample :
    envExcExact.excExact = some "boom" ∧
    (process_rag_query envExcExact "JSP-1046").rag_strategy = "exact_id_error" ∧
    "exact_id_error" ≠ "error_fallback" := by
  refine ⟨rfl, ?_, by decide⟩
  rw [process_rag_query_exact envExcExact "JSP-1046" "JSP-1046" (by decide),
    process_exact_exc envExcExact "JSP-1046" "JSP-1046" "boom" rfl]

/-- C6 amended: `process_rag_query` is total and never lets an exception
escape.  An unexpected exception in the main pipeline body yields
`error_fallback` with confidence 0, the error message inside the answer,
and empty incidents and sources; an unexpected exception inside the
exact-id branch is caught there and yields `exact_id_error` with the same
confidence-0/empty shape. -/
theorem C6_error_handling_amended :
    (∀ (env : Env) (q e : String),
       extract_exact_ticket_id q = none → env.excMain = some e →
       (process_rag_query env q).rag_strategy = "error_fallback" ∧
       (process_rag_query env q).confidence_score = 0 ∧
       strContains (process_rag_query env q).generated_answer e = true ∧
       (process_rag_query env q).retrieved_incidents = [] ∧
       (process_rag_query env q).sources = []) ∧
    (∀ (env : Env) (q tid e : String),
       extract_exact_ticket_id q = some tid → env.excExact = some e →
       (process_rag_query env q).rag_strategy = "exact_id_error" ∧
       (process_rag_query env q).confidence_score = 0 ∧
       strContains (process_rag_query env q).generated_answer e = true ∧
       (process_rag_query env q).retrieved_incidents = [] ∧
       (process_rag_query env q).sources = []) := by
  constructor
  · intro env q e hq hm
    rw [process_rag_query_errmain env q e hq hm]
    exact ⟨rfl, rfl, strContains_append_self "RAG pipeline error: " e, rfl, rfl⟩
  · intro env q tid e hq hm
    rw [process_rag_query_exact env q tid hq, process_exact_exc env q tid e hm]
    exact ⟨rfl, rfl, strContains_append_self _ e, rfl, rfl⟩

/-- Witness for the amended C6 at both injection points. -/
theorem C6_error_handling_amended_witness :
    (extract_exact_ticket_id "how to fix this" = none ∧
      envExcMain.excMain = some "boom" ∧
      (process_rag_query envExcMain "how to fix this").rag_strategy =
        "error_fallback") ∧
    (extract_exact_ticket_id "JSP-1046" = some "JSP-1046" ∧
      envExcExact.excExact = some "boom" ∧
      (process_rag_query envExcExact "JSP-1046").rag_strategy = "exact_id_error") :=
  ⟨⟨by decide, rfl,
      (C6_error_handling_amended.1 envExcMain "how to fix this" "boom"
        (by decide) rfl).1⟩,
    ⟨by decide, rfl,
      (C6_error_handling_amended.2 envExcExact "JSP-1046" "JSP-1046" "boom"
        (by decide) rfl).1⟩⟩

/-! ## Claim C3: normalization and weighted fusion -/

/-- C3: min-max normalization lands every score in `[0,1]` with the
all-equal special case mapping to 1.0, and each fused record's stored
per-method scores are exactly what the three methods reported for its id
after normalization (0 when a method missed it), the fused score being the
boost chain applied to the 0.6/0.3/0.1 weighted base of those scores. -/
theorem C3_normalization_and_fusion :
    (∀ l : List (Incident × ℚ), ∀ p ∈ normalize_scores l, 0 ≤ p.2 ∧ p.2 ≤ 1) ∧
    (∀ l : List (Incident × ℚ), (∀ p ∈ l, ∀ p2 ∈ l, p.2 = p2.2) →
       ∀ p ∈ normalize_scores l, p.2 = 1) ∧
    (∀ (env : Env) (q : String) (k : Nat) (m : ℚ),
       ((oracleList env.semantic).map (fun p => p.1.id)).Nodup →
       ((oracleList env.bm25).map (fun p => p.1.id)).Nodup →
       ((oracleList env.tfidf).map (fun p => p.1.id)).Nodup →
       ∀ r ∈ hybrid_search env q k m,
         r.semantic_score =
           methodScore (normalize_scores (oracleList env.semantic)) r.inc.id ∧
         r.bm25_score =
           methodScore (normalize_scores (oracleList env.bm25)) r.inc.id ∧
         r.tfidf_score =
           methodScore (normalize_scores (oracleList env.tfidf)) r.inc.id ∧
         r.fused_score = applyBoosts q r.inc r.method_count
           (semantic_weight * r.semantic_score + bm25_weight * r.bm25_score +
             tfidf_weight * r.tfidf_score)) := by
  refine ⟨?_, ?_, ?_⟩
  · intro l p hp
    cases l with
    | nil => cases hp
    | cons x rest =>
      simp only [normalize_scores] at hp
      by_cases he : (rest.map (·.2)).foldl max x.2 = (rest.map (·.2)).foldl min x.2
      · rw [if_pos he] at hp
        rcases List.mem_map.1 hp with ⟨p0, _, rfl⟩
        exact ⟨by norm_num, by norm_num⟩
      · rw [if_neg he] at hp
        rcases List.mem_map.1 hp with ⟨p0, hp0, rfl⟩
        have hmn : (rest.map (·.2)).foldl min x.2 ≤ p0.2 := by
          rcases List.mem_cons.1 hp0 with rfl | h0
          · exact foldl_min_le_init _ _
          · exact foldl_min_le_mem _ _ (List.mem_map.2 ⟨p0, h0, rfl⟩)
        have hmx : p0.2 ≤ (rest.map (·.2)).foldl max x.2 := by
          rcases List.mem_cons.1 hp0 with rfl | h0
          · exact le_foldl_max_init _ _
          · exact le_foldl_max_mem _ _ (List.mem_map.2 ⟨p0, h0, rfl⟩)
        have hlt : (rest.map (·.2)).foldl min x.2 < (rest.map (·.2)).foldl max x.2 := by
          rcases lt_or_eq_of_le (le_trans hmn hmx) with h | h
          · exact h
          · exact absurd h.symm he
        constructor
        · exact div_nonneg (by linarith) (by linarith)
        · rw [div_le_one (by linarith)]
          linarith
  · intro l hall p hp
    cases l with
    | nil => cases hp
    | cons x rest =>
      simp only [normalize_scores] at hp
      have hc : ∀ v ∈ rest.map (·.2), v = x.2 := by
        intro v hv
        rcases List.mem_map.1 hv with ⟨p0, hp0, rfl⟩
        exact hall p0 (List.mem_cons_of_mem x hp0) x (List.mem_cons_self x rest)
      have he : (rest.map (·.2)).foldl max x.2 = (rest.map (·.2)).foldl min x.2 := by
        rw [foldl_max_const _ _ hc, foldl_min_const _ _ hc]
      rw [if_pos he] at hp
      rcases List.mem_map.1 hp with ⟨p0, _, rfl⟩
      rfl
  · intro env q k m hs hb ht r hr
    obtain ⟨hmem, -⟩ := mem_hybrid_search env q k m r hr
    obtain ⟨p, hp, rfl⟩ := mem_fuse_scores _ _ _ hmem
    have hgood := goodGroups_resultGroups (allResults env)
    have hlook := lookupG_of_mem _ hgood p hp
    have hid : p.2.metadata.id = p.1 := hgood.2 p hp
    have hchar := group_scores_char (normalize_scores (oracleList env.semantic))
      (normalize_scores (oracleList env.bm25))
      (normalize_scores (oracleList env.tfidf)) p.1 p.2
      (by rw [normalize_scores_ids]; exact hs)
      (by rw [normalize_scores_ids]; exact hb)
      (by rw [normalize_scores_ids]; exact ht) hlook
    refine ⟨?_, ?_, ?_, rfl⟩
    · show p.2.semantic_score = _
      rw [show (fuseGroup q p.2).inc.id = p.1 from hid]
      exact hchar.1
    · show p.2.bm25_score = _
      rw [show (fuseGroup q p.2).inc.id = p.1 from hid]
      exact hchar.2.1
    · show p.2.tfidf_score = _
      rw [show (fuseGroup q p.2).inc.id = p.1 from hid]
      exact hchar.2.2

unseal Rat.ofScientific Rat.mul Rat.inv Rat.add Rat.sub in
/-- Witness for C3 on a concrete three-method environment, instantiated at
the top fused record. -/
theorem C3_normalization_and_fusion_witness :
    (((oracleList envTie.semantic).map (fun p => p.1.id)).Nodup ∧
      ((oracleList envTie.bm25).map (fun p => p.1.id)).Nodup ∧
      ((oracleList envTie.tfidf).map (fun p => p.1.id)).Nodup) ∧
    ((hybrid_search envTie "zzz" 10 (1 / 5)).getD 0 dummyRec ∈
      hybrid_search envTie "zzz" 10 (1 / 5)) ∧
    (((hybrid_search envTie "zzz" 10 (1 / 5)).getD 0 dummyRec).semantic_score =
        methodScore (normalize_scores (oracleList envTie.semantic))
          (((hybrid_search envTie "zzz" 10 (1 / 5)).getD 0 dummyRec).inc.id) ∧
      ((hybrid_search envTie "zzz" 10 (1 / 5)).getD 0 dummyRec).bm25_score =
        methodScore (normalize_scores (oracleList envTie.bm25))
          (((hybrid_search envTie "zzz" 10 (1 / 5)).getD 0 dummyRec).inc.id) ∧
      ((hybrid_search envTie "zzz" 10 (1 / 5)).getD 0 dummyRec).tfidf_score =
        methodScore (normalize_scores (oracleList envTie.tfidf))
          (((hybrid_search envTie "zzz" 10 (1 / 5)).getD 0 dummyRec).inc.id) ∧
      ((hybrid_search envTie "zzz" 10 (1 / 5)).getD 0 dummyRec).fused_score =
        applyBoosts "zzz" ((hybrid_search envTie "zzz" 10 (1 / 5)).getD 0 dummyRec).inc
          ((hybrid_search envTie "zzz" 10 (1 / 5)).getD 0 dummyRec).method_count
          (semantic_weight *
              ((hybrid_search envTie "zzz" 10 (1 / 5)).getD 0 dummyRec).semantic_score +
            bm25_weight *
              ((hybrid_search envTie "zzz" 10 (1 / 5)).getD 0 dummyRec).bm25_score +
            tfidf_weight *
              ((hybrid_search envTie "zzz" 10 (1 / 5)).getD 0 dummyRec).tfidf_score)) :=
  ⟨⟨by decide, by decide, by decide⟩, by decide,
    C3_normalization_and_fusion.2.2 envTie "zzz" 10 (1 / 5) (by decide) (by decide)
      (by decide) _ (by decide)⟩

/-! ## Claim C9 (corrected): retriever output ordering -/

unseal Rat.ofScientific Rat.mul Rat.inv Rat.add Rat.sub in
/-- Counterexample to C9 as stated: `B` (one method) and `A` (two methods)
tie at fused score 11/25, yet `B` precedes `A`, violating both the
method-count and the id tie-break the claim asserts. -/
theorem C9_counterexample :
    ((hybrid_search envTie "zzz" 10 (1 / 5)).map
        (fun r => (r.inc.id, r.fused_score, r.method_count)) =
      [("D", 3 / 5, 1), ("B", 11 / 25, 1), ("A", 11 / 25, 2)]) ∧
    ¬ C9TieBreakOrdered (hybrid_search envTie "zzz" 10 (1 / 5)) :=
  ⟨by decide, by unfold C9TieBreakOrdered; decide⟩

/-- C9 amended: the retriever's output is ordered by non-increasing fused
score, and the sort is stable — records sharing a fused score keep the
order in which their ids were first encountered (semantic results, then
BM25, then TF-IDF); there is no method-count or id tie-break. -/
theorem C9_ordering_amended :
    (∀ (env : Env) (q : String) (k : Nat) (m : ℚ),
       (hybrid_search env q k m).Pairwise
         (fun a b => b.fused_score ≤ a.fused_score)) ∧
    (∀ (l : List RRec) (c : ℚ),
       (stableSortDesc (fun r => r.fused_score) l).filter
           (fun r => r.fused_score = c) =
         l.filter (fun r => r.fused_score = c)) :=
  ⟨pairwise_hybrid_search, fun l c => filter_stableSortDesc _ l c⟩

/-! ## Claim C10 (corrected): some per-method score is positive -/

unseal Rat.ofScientific Rat.mul Rat.inv Rat.add Rat.sub in
/-- Counterexample to C10 as stated: with `min_score = 0` a record whose
three per-method scores are all 0 survives (the minimum of a semantic
result set normalizes to 0 and fuses to 0 ≥ 0). -/
theorem C10_counterexample :
    ((hybrid_search envZero "zzz" 10 0).map
        (fun r => (r.inc.id, r.semantic_score, r.bm25_score, r.tfidf_score)) =
      [("A", 1, 0, 0), ("B", 0, 0, 0)]) ∧
    ¬ (∀ r ∈ hybrid_search envZero "zzz" 10 0,
        0 < r.semantic_score ∨ 0 < r.bm25_score ∨ 0 < r.tfidf_score) :=
  ⟨by decide, by decide⟩

/-- C10 amended: whenever `min_score` is positive, every returned record
has at least one strictly positive per-method score. -/
theorem C10_method_score_positive_amended (env : Env) (q : String) (k : Nat)
    (m : ℚ) (hm : 0 < m) (r : RRec) (hr : r ∈ hybrid_search env q k m) :
    0 < r.semantic_score ∨ 0 < r.bm25_score ∨ 0 < r.tfidf_score := by
  obtain ⟨hmem, hge⟩ := mem_hybrid_search env q k m r hr
  obtain ⟨p, hp, rfl⟩ := mem_fuse_scores _ _ _ hmem
  by_contra hneg
  push_neg at hneg
  obtain ⟨hs0, hb0, ht0⟩ := hneg
  have h1 : p.2.semantic_score ≤ 0 := hs0
  have h2 : p.2.bm25_score ≤ 0 := hb0
  have h3 : p.2.tfidf_score ≤ 0 := ht0
  have hbase : semantic_weight * p.2.semantic_score +
      bm25_weight * p.2.bm25_score + tfidf_weight * p.2.tfidf_score ≤ 0 := by
    unfold semantic_weight bm25_weight tfidf_weight
    linarith
  have hfz : (fuseGroup q p.2).fused_score ≤ 0 :=
    applyBoosts_nonpos q p.2.metadata p.2.search_types.dedup.length _ hbase
  have hge2 : m ≤ (fuseGroup q p.2).fused_score := hge
  linarith

unseal Rat.ofScientific Rat.mul Rat.inv Rat.add Rat.sub in
/-- Witness for the amended C10 at `min_score = 1/5`. -/
theorem C10_method_score_positive_amended_witness :
    (0 : ℚ) < 1 / 5 ∧
    ((hybrid_search envTie "zzz" 10 (1 / 5)).getD 0 dummyRec ∈
      hybrid_search envTie "zzz" 10 (1 / 5)) ∧
    (0 < ((hybrid_search envTie "zzz" 10 (1 / 5)).getD 0 dummyRec).semantic_score ∨
      0 < ((hybrid_search envTie "zzz" 10 (1 / 5)).getD 0 dummyRec).bm25_score ∨
      0 < ((hybrid_search envTie "zzz" 10 (1 / 5)).getD 0 dummyRec).tfidf_score) :=
  ⟨by norm_num, by decide,
    C10_method_score_positive_amended envTie "zzz" 10 (1 / 5) (by norm_num) _
      (by decide)⟩

/-! ## Claim C7: reject strategies carry empty incidents and sources -/

/-- C7: every API reply whose strategy is `exact_id_not_found`,
`domain_filter`, `no_relevant_results`, `low_confidence_rejected` or
`error_fallback` has empty `retrieved_incidents` and `sources`. -/
theorem C7_empty_on_reject (env : Env) (q : String) (b : Bool) (r : RAGResult)
    (hr : api_process_rag_query env q b = .ok r)
    (hs : r.rag_strategy ∈
      (["exact_id_not_found", "domain_filter", "no_relevant_results",
        "low_confidence_rejected", "error_fallback"] : List String)) :
    r.retrieved_incidents = [] ∧ r.sources = [] := by
  unfold api_process_rag_query at hr
  by_cases h1 : (stripL q.data).isEmpty
  · rw [if_pos h1] at hr
    cases hr
  · rw [if_neg h1] at hr
    by_cases h2 : is_payment_domain_query q
    · rw [if_neg (by simpa using h2)] at hr
      have hrr := Except.ok.inj hr
      subst hrr
      have h3 := service_reject_empty env q hs
      refine ⟨h3.1, ?_⟩
      cases b
      · rfl
      · exact h3.2
    · rw [if_pos (by simpa using h2)] at hr
      have hrr := Except.ok.inj hr
      subst hrr
      exact ⟨rfl, rfl⟩

/-- Witness for C7: a non-payment query is domain-filtered with empty
incidents and sources. -/
theorem C7_empty_on_reject_witness :
    api_process_rag_query baseEnv "hello there" true =
      .ok (domainFilterResult "hello there") ∧
    (domainFilterResult "hello there").rag_strategy ∈
      (["exact_id_not_found", "domain_filter", "no_relevant_results",
        "low_confidence_rejected", "error_fallback"] : List String) ∧
    (domainFilterResult "hello there").retrieved_incidents = [] ∧
    (domainFilterResult "hello there").sources = [] :=
  ⟨rfl, by decide,
    (C7_empty_on_reject baseEnv "hello there" true (domainFilterResult "hello there")
      rfl (by decide)).1,
    (C7_empty_on_reject baseEnv "hello there" true (domainFilterResult "hello there")
      rfl (by decide)).2⟩

end SherlockAI
